import Mathlib

/-!
# renderdog replay session: a shallow embedding

Source: `crates/renderdog-replay/src/replay.cc` (POSIX branches) with
`crates/renderdog-replay/include/replay.h`; the experimental crate
`crates/renderdog-replay-experimental/src/replay.cc` has the same session
operations without the process-wide cache.

Modelling conventions
* A pointer is an `Option Handle`: `none` is the null pointer.
* The dynamic loader and the replay engine are external.  What they answer
  during one operation is an `Engine` record that every operation takes as an
  argument, so a theorem quantified over the record holds for every engine
  behaviour, and a sequence of operations carries one record per operation.
* Every function returns the calls it made on the loader and the engine, in
  order, as a list of `Call`.
* An operation fails exactly where the source has a `throw`; each `throw`
  site is one constructor of `ReplayError`.
* `rdcstr` contents and the JSON text are lists of characters; paths and
  symbol names are strings that are only passed along.
-/

namespace renderdog
namespace replay

/-! ## Data -/

/-- Non-null pointer value. -/
abbrev Handle := Nat

/-- Engine resource identifier (`ResourceId`). -/
abbrev ResourceId := Nat

/-- Contents of an `rdcstr` / `std::string`. -/
abbrev Text := List Char

/-- The `std::runtime_error`s thrown by replay.cc, one per `throw` site message. -/
inductive ReplayError
  | dlopen_failed
  | library_load_failed
  | missing_symbol (name : String)
  | open_capture_file_null
  | open_file_failed
  | open_capture_failed
  | replay_not_initialised
  | capture_not_opened
  | controller_not_available
  | texture_index_out_of_range
  | save_texture_failed
  | module_not_loaded
  | allocators_unresolved
  deriving DecidableEq, Repr

/-- The fields of `ResourceDescription` the session reads. -/
structure ResourceDescription where
  resourceId : ResourceId
  name : Text
  deriving DecidableEq, Repr

/-- The fields of `TextureDescription` the session reads (all unsigned). -/
structure TextureDescription where
  resourceId : ResourceId
  width : Nat
  height : Nat
  depth : Nat
  mips : Nat
  arraysize : Nat
  msSamp : Nat
  byteSize : Nat
  deriving DecidableEq, Repr

/-- The four channels of `PixelValue::floatValue`, carried as opaque values. -/
structure PixelValue where
  f0 : Nat
  f1 : Nat
  f2 : Nat
  f3 : Nat
  deriving DecidableEq, Repr

/-- Destination file types of `TextureSave` (only PNG is requested here). -/
inductive FileType
  | DDS
  | PNG
  | JPG
  deriving DecidableEq, Repr

/-- The fields of `TextureSave` that `save_texture_png` writes. -/
structure TextureSave where
  resourceId : ResourceId
  destType : FileType
  mip : Nat
  deriving DecidableEq, Repr

/-- One call on the dynamic loader or on the engine. -/
inductive Call
  | dlopen (path : String)
  | dlsym (lib : Option Handle) (name : String)
  | dlclose (lib : Handle)
  | InitialiseReplay
  | ShutdownReplay
  | OpenCaptureFile
  | OpenFile (capture_file : Handle) (filename : String) (filetype : String)
  | OpenCapture (capture_file : Handle)
  | CaptureFile_Shutdown (capture_file : Handle)
  | Controller_Shutdown (controller : Handle)
  | SetFrameEvent (controller : Handle) (event_id : Nat) (force : Bool)
  | GetResources (controller : Handle)
  | GetTextures (controller : Handle)
  | PickPixel (controller : Handle) (id : ResourceId) (x y : Nat) (mip slice sample : Nat)
  | SaveTexture (controller : Handle) (save : TextureSave) (path : String)
  | engine_alloc (fn : Handle) (sz : Nat)
  | engine_free (fn : Handle) (mem : Option Handle)
  deriving DecidableEq, Repr

/-- What the environment, the dynamic loader and the engine answer during one
operation.  `dlsym` takes the possibly-null library pointer it is called with. -/
structure Engine where
  getenv : String → Option String
  dlopen : String → Option Handle
  dlsym : Option Handle → String → Option Handle
  OpenCaptureFile : Option Handle
  OpenFile_OK : Bool
  OpenCapture_OK : Bool
  OpenCapture_controller : Option Handle
  GetResources : List ResourceDescription
  GetTextures : List TextureDescription
  PickPixel : ResourceId → Nat → Nat → PixelValue
  SaveTexture_OK : Bool
  ShutdownReplay_throws : Bool
  alloc_result : Option Handle

/-- The private fields of `class ReplaySession` (replay.h), with their
default member initialisers. -/
structure ReplaySession where
  lib_ : Option Handle := none
  replay_initialised_ : Bool := false
  capture_file_ : Option Handle := none
  controller_ : Option Handle := none
  deriving DecidableEq, Repr

/-- The process-wide atomics of replay.cc. -/
structure Globals where
  g_renderdoc_module : Option Handle := none
  g_alloc_array_mem : Option Handle := none
  g_free_array_mem : Option Handle := none
  deriving DecidableEq, Repr

/-- One session together with the process-wide state. -/
structure World where
  sess : ReplaySession
  glob : Globals
  deriving DecidableEq, Repr

deriving instance DecidableEq for Except

/-- Result of a state-changing operation: what it returned or threw, the
state it left behind (also when it threw) and the calls it made. -/
structure Outcome (α : Type) where
  result : Except ReplayError α
  world : World
  trace : List Call

/-! ## Library loading -/

/-- The body of `load_symbol<T>(lib, name)`: `dlsym`, throwing on null. -/
def load_symbol (e : Engine) (lib : Option Handle) (name : String) :
    Except ReplayError Handle × List Call :=
  match e.dlsym lib name with
  | none => (.error (.missing_symbol name), [Call.dlsym lib name])
  | some sym => (.ok sym, [Call.dlsym lib name])

/-- The loops `for(const char *name : names) { lib = dlopen(base + name); if(lib) ... return; }`:
the first handle that loads, with the `dlopen` calls made. -/
def dlopen_first (e : Engine) (base : String) : List String → Option Handle × List Call
  | [] => (none, [])
  | name :: rest =>
    match e.dlopen (base ++ name) with
    | some lib => (some lib, [Call.dlopen (base ++ name)])
    | none => ((dlopen_first e base rest).1, Call.dlopen (base ++ name) :: (dlopen_first e base rest).2)

/-- The directory prefix: `if(!base.empty() && base.back() != '/') base.push_back('/')`. -/
def dir_base (dir : String) : String :=
  if dir.data ≠ [] ∧ dir.data.getLast? ≠ some '/' then dir ++ "/" else dir

/-- On a successful load: `lib_ = lib; g_renderdoc_module.store(lib);`. -/
def store_lib (lib : Handle) (w : World) : World :=
  { sess := { w.sess with lib_ := some lib },
    glob := { w.glob with g_renderdoc_module := some lib } }

/-- The first stage of discovery: the file named by `RENDERDOG_REPLAY_RENDERDOC_SO`. -/
def dlopen_env_so (e : Engine) : Option Handle × List Call :=
  match e.getenv "RENDERDOG_REPLAY_RENDERDOC_SO" with
  | some so => (e.dlopen so, [Call.dlopen so])
  | none => (none, [])

/-- The second stage as `ReplaySession::ensure_loaded` and `get_renderdoc_module`
both write it: the directory of `RENDERDOG_RENDERDOC_DIR` with each of
`librenderdoc.so.1`, `librenderdoc.so`. -/
def dlopen_env_dir (e : Engine) : Option Handle × List Call :=
  match e.getenv "RENDERDOG_RENDERDOC_DIR" with
  | some dir => dlopen_first e (dir_base dir) ["librenderdoc.so.1", "librenderdoc.so"]
  | none => (none, [])

/-- `ReplaySession::ensure_loaded`, POSIX branch (replay.cc 328-416). -/
def ensure_loaded (e : Engine) (w : World) : Outcome Unit :=
  if w.sess.lib_.isSome then
    { result := .ok (), world := w, trace := [] }
  else
    match (dlopen_env_so e).1 with
    | some lib => { result := .ok (), world := store_lib lib w, trace := (dlopen_env_so e).2 }
    | none =>
      match (dlopen_env_dir e).1 with
      | some lib =>
        { result := .ok (), world := store_lib lib w,
          trace := (dlopen_env_so e).2 ++ (dlopen_env_dir e).2 }
      | none =>
        match (dlopen_first e "" ["librenderdoc.so", "librenderdoc.so.1"]).1 with
        | some lib =>
          { result := .ok (), world := store_lib lib w,
            trace := (dlopen_env_so e).2 ++ (dlopen_env_dir e).2
              ++ (dlopen_first e "" ["librenderdoc.so", "librenderdoc.so.1"]).2 }
        | none =>
          { result := .error .library_load_failed, world := w,
            trace := (dlopen_env_so e).2 ++ (dlopen_env_dir e).2
              ++ (dlopen_first e "" ["librenderdoc.so", "librenderdoc.so.1"]).2 }

/-- `replay_session_new` (replay.cc 261-286): a default-constructed session,
eagerly loaded from `renderdoc_path` when that is not empty. -/
def replay_session_new (e : Engine) (renderdoc_path : String) (g : Globals) : Outcome Unit :=
  if renderdoc_path.data.length > 0 then
    match e.dlopen renderdoc_path with
    | none =>
      { result := .error .dlopen_failed, world := { sess := {}, glob := g },
        trace := [Call.dlopen renderdoc_path] }
    | some lib =>
      { result := .ok (), world := store_lib lib { sess := {}, glob := g },
        trace := [Call.dlopen renderdoc_path] }
  else
    { result := .ok (), world := { sess := {}, glob := g }, trace := [] }

/-- `get_renderdoc_module`, POSIX branch (replay.cc 96-137): the cached module,
or the first candidate that loads, which is then cached. -/
def get_renderdoc_module (e : Engine) (g : Globals) : Option Handle × Globals × List Call :=
  match g.g_renderdoc_module with
  | some m => (some m, g, [])
  | none =>
    match (dlopen_env_so e).1 with
    | some lib => (some lib, { g with g_renderdoc_module := some lib }, (dlopen_env_so e).2)
    | none =>
      match (dlopen_env_dir e).1 with
      | some lib =>
        (some lib, { g with g_renderdoc_module := some lib },
          (dlopen_env_so e).2 ++ (dlopen_env_dir e).2)
      | none =>
        match (dlopen_first e "" ["librenderdoc.so.1", "librenderdoc.so"]).1 with
        | some lib =>
          (some lib, { g with g_renderdoc_module := some lib },
            (dlopen_env_so e).2 ++ (dlopen_env_dir e).2
              ++ (dlopen_first e "" ["librenderdoc.so.1", "librenderdoc.so"]).2)
        | none =>
          (none, g,
            (dlopen_env_so e).2 ++ (dlopen_env_dir e).2
              ++ (dlopen_first e "" ["librenderdoc.so.1", "librenderdoc.so"]).2)

/-- `ensure_array_allocators` (replay.cc 141-165). -/
def ensure_array_allocators (e : Engine) (g : Globals) :
    Except ReplayError Unit × Globals × List Call :=
  if g.g_alloc_array_mem.isSome ∧ g.g_free_array_mem.isSome then (.ok (), g, [])
  else
    match (get_renderdoc_module e g).1 with
    | none => (.error .module_not_loaded, (get_renderdoc_module e g).2.1,
        (get_renderdoc_module e g).2.2)
    | some m =>
      match e.dlsym (some m) "RENDERDOC_AllocArrayMem", e.dlsym (some m) "RENDERDOC_FreeArrayMem" with
      | some alloc, some free =>
        (.ok (),
          { (get_renderdoc_module e g).2.1 with
              g_alloc_array_mem := some alloc, g_free_array_mem := some free },
          (get_renderdoc_module e g).2.2
            ++ [Call.dlsym (some m) "RENDERDOC_AllocArrayMem",
                Call.dlsym (some m) "RENDERDOC_FreeArrayMem"])
      | _, _ =>
        (.error .allocators_unresolved, (get_renderdoc_module e g).2.1,
          (get_renderdoc_module e g).2.2
            ++ [Call.dlsym (some m) "RENDERDOC_AllocArrayMem",
                Call.dlsym (some m) "RENDERDOC_FreeArrayMem"])

/-- The exported `RENDERDOC_AllocArrayMem` (replay.cc 229-243): the returned
pointer, the process-wide state afterwards and the calls made; every
exception is caught and turned into a null result. -/
def RENDERDOC_AllocArrayMem (e : Engine) (sz : Nat) (g : Globals) :
    Option Handle × Globals × List Call :=
  match (ensure_array_allocators e g).1 with
  | .error _ => (none, (ensure_array_allocators e g).2.1, (ensure_array_allocators e g).2.2)
  | .ok _ =>
    match (ensure_array_allocators e g).2.1.g_alloc_array_mem with
    | some f =>
      (e.alloc_result, (ensure_array_allocators e g).2.1,
        (ensure_array_allocators e g).2.2 ++ [Call.engine_alloc f sz])
    | none => (none, (ensure_array_allocators e g).2.1, (ensure_array_allocators e g).2.2)

/-- The exported `RENDERDOC_FreeArrayMem` (replay.cc 245-259). -/
def RENDERDOC_FreeArrayMem (e : Engine) (mem : Option Handle) (g : Globals) :
    Globals × List Call :=
  match (ensure_array_allocators e g).1 with
  | .error _ => ((ensure_array_allocators e g).2.1, (ensure_array_allocators e g).2.2)
  | .ok _ =>
    match (ensure_array_allocators e g).2.1.g_free_array_mem with
    | some f =>
      ((ensure_array_allocators e g).2.1,
        (ensure_array_allocators e g).2.2 ++ [Call.engine_free f mem])
    | none => ((ensure_array_allocators e g).2.1, (ensure_array_allocators e g).2.2)

/-! ## Opening a capture -/

/-- Lines 424-435 of `open_capture`: replay initialisation, skipped when
`replay_initialised_` is already true.  The only `throw` here is the one of
`load_symbol`; the entry point itself returns. -/
def init_replay (e : Engine) (w : World) : Outcome Unit :=
  if w.sess.replay_initialised_ then
    { result := .ok (), world := w, trace := [] }
  else
    match (load_symbol e w.sess.lib_ "RENDERDOC_InitialiseReplay").1 with
    | .error err =>
      { result := .error err, world := w,
        trace := (load_symbol e w.sess.lib_ "RENDERDOC_InitialiseReplay").2 }
    | .ok _ =>
      { result := .ok (),
        world := { w with sess := { w.sess with replay_initialised_ := true } },
        trace := (load_symbol e w.sess.lib_ "RENDERDOC_InitialiseReplay").2 ++ [Call.InitialiseReplay] }

/-- Lines 437-465 of `open_capture`: the capture-file handle and the two-phase open. -/
def open_capture_file (e : Engine) (capture_path : String) (w : World) : Outcome Unit :=
  match (load_symbol e w.sess.lib_ "RENDERDOC_OpenCaptureFile").1 with
  | .error err =>
    { result := .error err, world := w,
      trace := (load_symbol e w.sess.lib_ "RENDERDOC_OpenCaptureFile").2 }
  | .ok _ =>
    -- capture_file_ = open_file();
    match e.OpenCaptureFile with
    | none =>
      { result := .error .open_capture_file_null,
        world := { w with sess := { w.sess with capture_file_ := none } },
        trace := (load_symbol e w.sess.lib_ "RENDERDOC_OpenCaptureFile").2 ++ [Call.OpenCaptureFile] }
    | some cf =>
      if ¬ e.OpenFile_OK then
        { result := .error .open_file_failed,
          world := { w with sess := { w.sess with capture_file_ := some cf } },
          trace := (load_symbol e w.sess.lib_ "RENDERDOC_OpenCaptureFile").2
            ++ [Call.OpenCaptureFile, Call.OpenFile cf capture_path "rdc"] }
      else if ¬ e.OpenCapture_OK ∨ e.OpenCapture_controller = none then
        { result := .error .open_capture_failed,
          world := { w with sess := { w.sess with capture_file_ := some cf } },
          trace := (load_symbol e w.sess.lib_ "RENDERDOC_OpenCaptureFile").2
            ++ [Call.OpenCaptureFile, Call.OpenFile cf capture_path "rdc", Call.OpenCapture cf] }
      else
        { result := .ok (),
          world := { w with sess := { w.sess with capture_file_ := some cf,
                                                   controller_ := e.OpenCapture_controller } },
          trace := (load_symbol e w.sess.lib_ "RENDERDOC_OpenCaptureFile").2
            ++ [Call.OpenCaptureFile, Call.OpenFile cf capture_path "rdc", Call.OpenCapture cf] }

/-- `ReplaySession::open_capture` (replay.cc 418-465). -/
def open_capture (e : Engine) (capture_path : String) (w : World) : Outcome Unit :=
  match (ensure_loaded e w).result with
  | .error err => { result := .error err, world := (ensure_loaded e w).world,
                    trace := (ensure_loaded e w).trace }
  | .ok _ =>
    match (init_replay e (ensure_loaded e w).world).result with
    | .error err =>
      { result := .error err, world := (init_replay e (ensure_loaded e w).world).world,
        trace := (ensure_loaded e w).trace ++ (init_replay e (ensure_loaded e w).world).trace }
    | .ok _ =>
      { result := (open_capture_file e capture_path (init_replay e (ensure_loaded e w).world).world).result,
        world := (open_capture_file e capture_path (init_replay e (ensure_loaded e w).world).world).world,
        trace := (ensure_loaded e w).trace ++ (init_replay e (ensure_loaded e w).world).trace
          ++ (open_capture_file e capture_path (init_replay e (ensure_loaded e w).world).world).trace }

/-- `ReplaySession::ensure_opened` (replay.cc 467-475). -/
def ensure_opened (s : ReplaySession) : Except ReplayError Handle :=
  if ¬ s.replay_initialised_ then .error .replay_not_initialised
  else match s.capture_file_ with
    | none => .error .capture_not_opened
    | some _ =>
      match s.controller_ with
      | none => .error .controller_not_available
      | some c => .ok c

/-! ## Queries on an opened capture -/

/-- `ReplaySession::set_frame_event` (replay.cc 477-481). -/
def set_frame_event (s : ReplaySession) (event_id : Nat) : Except ReplayError Unit × List Call :=
  match ensure_opened s with
  | .error err => (.error err, [])
  | .ok c => (.ok (), [Call.SetFrameEvent c event_id true])

/-- The `std::map<ResourceId, rdcstr>` of `list_textures_json`: `find` as a function. -/
abbrev NameMap := ResourceId → Option Text

/-- The statement `name_by_id[k] = v`. -/
def NameMap.assign (m : NameMap) (k : ResourceId) (v : Text) : NameMap :=
  fun k' => if k' = k then some v else m k'

/-- The loop `for(i < resources.size()) name_by_id[resources[i].resourceId] = resources[i].name`. -/
def build_name_by_id : List ResourceDescription → NameMap → NameMap
  | [], m => m
  | r :: rs, m => build_name_by_id rs (m.assign r.resourceId r.name)

/-- The characters tested by `json_escape`. -/
def backslash : Char := Char.ofNat 92
/-- The double quote character. -/
def dquote : Char := Char.ofNat 34
/-- The line feed character. -/
def newline : Char := Char.ofNat 10
/-- The carriage return character. -/
def carriage_return : Char := Char.ofNat 13
/-- The horizontal tab character. -/
def tab : Char := Char.ofNat 9

/-- The loop of `json_escape` (replay.cc 203-225) over the characters still to
read, with the output built so far. -/
def json_escape_loop : Text → Text → Text
  | [], out => out
  | c :: cs, out =>
    if c = backslash then json_escape_loop cs (out ++ [backslash, backslash])
    else if c = dquote then json_escape_loop cs (out ++ [backslash, dquote])
    else if c = newline then json_escape_loop cs (out ++ [backslash, 'n'])
    else if c = carriage_return then json_escape_loop cs (out ++ [backslash, 'r'])
    else if c = tab then json_escape_loop cs (out ++ [backslash, 't'])
    else json_escape_loop cs (out ++ [c])

/-- `json_escape` (replay.cc 203-225). -/
def json_escape (s : Text) : Text := json_escape_loop s []

/-- `std::to_string` on an unsigned value: its decimal digits. -/
def to_string (n : Nat) : Text := Nat.toDigits 10 n

/-- The lookup `it != name_by_id.end() ? it->second : rdcstr("<unknown>")`. -/
def texture_name (name_by_id : NameMap) (t : TextureDescription) : Text :=
  match name_by_id t.resourceId with
  | some n => n
  | none => "<unknown>".data

/-- One iteration of the texture loop of `list_textures_json` (replay.cc 497-524):
the appends made to `out` for the texture at position `i`. -/
def append_texture (out : Text) (i : Nat) (name : Text) (t : TextureDescription) : Text :=
  let out := if i > 0 then out ++ ",".data else out
  let out := out ++ "\x7b".data
  let out := out ++ "\"index\":".data
  let out := out ++ to_string (i % 2 ^ 32)
  let out := out ++ ",\"name\":\"".data
  let out := out ++ json_escape name
  let out := out ++ "\"".data
  let out := out ++ ",\"width\":".data
  let out := out ++ to_string t.width
  let out := out ++ ",\"height\":".data
  let out := out ++ to_string t.height
  let out := out ++ ",\"depth\":".data
  let out := out ++ to_string t.depth
  let out := out ++ ",\"mips\":".data
  let out := out ++ to_string t.mips
  let out := out ++ ",\"arraysize\":".data
  let out := out ++ to_string t.arraysize
  let out := out ++ ",\"msSamp\":".data
  let out := out ++ to_string t.msSamp
  let out := out ++ ",\"byteSize\":".data
  let out := out ++ to_string t.byteSize
  out ++ "\x7d".data

/-- The texture loop of `list_textures_json` over the textures still to visit,
with the loop counter and the output built so far. -/
def list_textures_loop (name_by_id : NameMap) : List TextureDescription → Nat → Text → Text
  | [], _, out => out
  | t :: ts, i, out =>
    list_textures_loop name_by_id ts (i + 1) (append_texture out i (texture_name name_by_id t) t)

/-- The text built by `list_textures_json` from the two collections (replay.cc 487-527). -/
def list_textures_text (resources : List ResourceDescription)
    (textures : List TextureDescription) : Text :=
  list_textures_loop (build_name_by_id resources (fun _ => none)) textures 0 "[".data ++ "]".data

/-- `ReplaySession::list_textures_json` (replay.cc 483-528). -/
def list_textures_json (e : Engine) (s : ReplaySession) : Except ReplayError Text × List Call :=
  match ensure_opened s with
  | .error err => (.error err, [])
  | .ok c =>
    (.ok (list_textures_text e.GetResources e.GetTextures),
      [Call.GetResources c, Call.GetTextures c])

/-- `ReplaySession::pick_pixel` (replay.cc 530-549). -/
def pick_pixel (e : Engine) (s : ReplaySession) (texture_index x y : Nat) :
    Except ReplayError (List Nat) × List Call :=
  match ensure_opened s with
  | .error err => (.error err, [])
  | .ok c =>
    if h : texture_index ≥ e.GetTextures.length then
      (.error .texture_index_out_of_range, [Call.GetTextures c])
    else
      let t := e.GetTextures.get ⟨texture_index, Nat.lt_of_not_le h⟩
      let pv := e.PickPixel t.resourceId x y
      (.ok [pv.f0, pv.f1, pv.f2, pv.f3],
        [Call.GetTextures c, Call.PickPixel c t.resourceId x y 0 0 0])

/-- `ReplaySession::save_texture_png` (replay.cc 551-572). -/
def save_texture_png (e : Engine) (s : ReplaySession) (texture_index : Nat)
    (output_path : String) : Except ReplayError Unit × List Call :=
  match ensure_opened s with
  | .error err => (.error err, [])
  | .ok c =>
    if h : texture_index ≥ e.GetTextures.length then
      (.error .texture_index_out_of_range, [Call.GetTextures c])
    else
      let t := e.GetTextures.get ⟨texture_index, Nat.lt_of_not_le h⟩
      let save : TextureSave := { resourceId := t.resourceId, destType := FileType.PNG, mip := 0 }
      if ¬ e.SaveTexture_OK then
        (.error .save_texture_failed, [Call.GetTextures c, Call.SaveTexture c save output_path])
      else
        (.ok (), [Call.GetTextures c, Call.SaveTexture c save output_path])

/-! ## Teardown -/

/-- Destructor step 1: `if(controller_) { controller_->Shutdown(); controller_ = nullptr; }`. -/
def shutdown_controller (s : ReplaySession) : ReplaySession × List Call :=
  match s.controller_ with
  | some c => ({ s with controller_ := none }, [Call.Controller_Shutdown c])
  | none => (s, [])

/-- Destructor step 2: `if(capture_file_) { capture_file_->Shutdown(); capture_file_ = nullptr; }`. -/
def shutdown_capture_file (s : ReplaySession) : ReplaySession × List Call :=
  match s.capture_file_ with
  | some cf => ({ s with capture_file_ := none }, [Call.CaptureFile_Shutdown cf])
  | none => (s, [])

/-- Destructor step 3: best-effort `RENDERDOC_ShutdownReplay` inside `try { } catch(...) { }`,
then `replay_initialised_ = false`. -/
def shutdown_replay (e : Engine) (s : ReplaySession) : ReplaySession × List Call :=
  if s.replay_initialised_ then
    match (load_symbol e s.lib_ "RENDERDOC_ShutdownReplay").1 with
    | .error _ =>
      ({ s with replay_initialised_ := false },
        (load_symbol e s.lib_ "RENDERDOC_ShutdownReplay").2)
    | .ok _ =>
      -- sym(); whatever it throws is caught by catch(...)
      if e.ShutdownReplay_throws then
        ({ s with replay_initialised_ := false },
          (load_symbol e s.lib_ "RENDERDOC_ShutdownReplay").2 ++ [Call.ShutdownReplay])
      else
        ({ s with replay_initialised_ := false },
          (load_symbol e s.lib_ "RENDERDOC_ShutdownReplay").2 ++ [Call.ShutdownReplay])
  else (s, [])

/-- Destructor step 4: `if(lib_) { dlclose(lib_); lib_ = nullptr; }`. -/
def unload_library (s : ReplaySession) : ReplaySession × List Call :=
  match s.lib_ with
  | some lib => ({ s with lib_ := none }, [Call.dlclose lib])
  | none => (s, [])

/-- `ReplaySession::~ReplaySession` (replay.cc 288-326); the process-wide
atomics are not written. -/
def teardown (e : Engine) (w : World) : Outcome Unit :=
  let r1 := shutdown_controller w.sess
  let r2 := shutdown_capture_file r1.1
  let r3 := shutdown_replay e r2.1
  let r4 := unload_library r3.1
  { result := .ok (), world := { w with sess := r4.1 },
    trace := r1.2 ++ r2.2 ++ r3.2 ++ r4.2 }

/-! ## Sequences of operations on one session -/

/-- The operations a host can apply to a session once it exists. -/
inductive Op
  | open_capture (capture_path : String)
  | set_frame_event (event_id : Nat)
  | list_textures_json
  | pick_pixel (texture_index x y : Nat)
  | save_texture_png (texture_index : Nat) (output_path : String)
  | teardown
  deriving DecidableEq, Repr

/-- What an operation returns. -/
inductive Value
  | unit
  | text (t : Text)
  | pixel (v : List Nat)
  deriving DecidableEq, Repr

/-- One operation applied to a session, under the engine behaviour `e`. -/
def step (e : Engine) (op : Op) (w : World) : Outcome Value :=
  match op with
  | .open_capture p =>
    { result := (open_capture e p w).result.map (fun _ => Value.unit),
      world := (open_capture e p w).world, trace := (open_capture e p w).trace }
  | .set_frame_event ev =>
    { result := (set_frame_event w.sess ev).1.map (fun _ => Value.unit),
      world := w, trace := (set_frame_event w.sess ev).2 }
  | .list_textures_json =>
    { result := (list_textures_json e w.sess).1.map Value.text,
      world := w, trace := (list_textures_json e w.sess).2 }
  | .pick_pixel i x y =>
    { result := (pick_pixel e w.sess i x y).1.map Value.pixel,
      world := w, trace := (pick_pixel e w.sess i x y).2 }
  | .save_texture_png i p =>
    { result := (save_texture_png e w.sess i p).1.map (fun _ => Value.unit),
      world := w, trace := (save_texture_png e w.sess i p).2 }
  | .teardown =>
    { result := (teardown e w).result.map (fun _ => Value.unit),
      world := (teardown e w).world, trace := (teardown e w).trace }

/-- The state after a sequence of operations, each with its own engine behaviour. -/
def run (w : World) : List (Engine × Op) → World
  | [] => w
  | (e, op) :: rest => run (step e op w).world rest

/-- The calls made by a sequence of operations, in order. -/
def run_trace (w : World) : List (Engine × Op) → List Call
  | [] => []
  | (e, op) :: rest => (step e op w).trace ++ run_trace (step e op w).world rest

/-! ## Predicates used by the statements -/

/-- The three errors thrown by `ensure_opened`: the spec's `NotReadyError`. -/
def is_not_ready : ReplayError → Bool
  | .replay_not_initialised => true
  | .capture_not_opened => true
  | .controller_not_available => true
  | _ => false

/-- The four query operations. -/
def Op.is_query : Op → Bool
  | .set_frame_event _ => true
  | .list_textures_json => true
  | .pick_pixel _ _ _ => true
  | .save_texture_png _ _ => true
  | _ => false

/-- No `open_capture` call of the sequence returns normally. -/
def no_open_succeeded (w : World) : List (Engine × Op) → Bool
  | [] => true
  | (e, op) :: rest =>
    (match op with
      | .open_capture p => decide ((open_capture e p w).result ≠ .ok ())
      | _ => true)
    && no_open_succeeded (step e op w).world rest

/-- The invariant of the spec's data model: controller only with a capture
file, capture file only after replay initialisation, that only with a library. -/
def session_invariant (s : ReplaySession) : Prop :=
  (s.controller_.isSome = true → s.capture_file_.isSome = true)
  ∧ (s.capture_file_.isSome = true → s.replay_initialised_ = true)
  ∧ (s.replay_initialised_ = true → s.lib_.isSome = true)

instance (s : ReplaySession) : Decidable (session_invariant s) := by
  unfold session_invariant; infer_instance

/-- The lower two links of the invariant. -/
def loaded_invariant (s : ReplaySession) : Prop :=
  (s.capture_file_.isSome = true → s.replay_initialised_ = true)
  ∧ (s.replay_initialised_ = true → s.lib_.isSome = true)

instance (s : ReplaySession) : Decidable (loaded_invariant s) := by
  unfold loaded_invariant; infer_instance

/-- The one call that breaks the top link: `open_capture` on a session whose
controller is set, where `RENDERDOC_OpenCaptureFile` binds and returns null. -/
def reopen_returns_null (e : Engine) (op : Op) (w : World) : Prop :=
  (∃ p, op = Op.open_capture p) ∧ w.sess.controller_.isSome = true
    ∧ (e.dlsym w.sess.lib_ "RENDERDOC_OpenCaptureFile").isSome = true
    ∧ e.OpenCaptureFile = none

/-! ## Stub engines for the concrete instances -/

/-- A stub engine on which everything succeeds: only the bare name
`librenderdoc.so` loads, every symbol resolves, and the controller exposes
textures named albedo and normal and one texture without a resource entry. -/
def stub_engine : Engine :=
  { getenv := fun _ => none,
    dlopen := fun p => if p = "librenderdoc.so" then some 7 else none,
    dlsym := fun _ _ => some 1,
    OpenCaptureFile := some 11,
    OpenFile_OK := true,
    OpenCapture_OK := true,
    OpenCapture_controller := some 12,
    GetResources := [⟨1, "albedo".data⟩, ⟨2, "normal".data⟩],
    GetTextures := [⟨1, 4, 4, 1, 1, 1, 1, 64⟩, ⟨2, 8, 8, 1, 4, 1, 1, 256⟩, ⟨3, 2, 2, 1, 1, 1, 1, 16⟩],
    PickPixel := fun _ _ _ => ⟨0, 0, 0, 0⟩,
    SaveTexture_OK := true,
    ShutdownReplay_throws := false,
    alloc_result := none }

/-- The stub engine with no loadable library. -/
def stub_no_library : Engine := { stub_engine with dlopen := fun _ => none }

/-- The stub engine without the `RENDERDOC_InitialiseReplay` symbol. -/
def stub_no_init_symbol : Engine :=
  { stub_engine with dlsym := fun _ name => if name = "RENDERDOC_InitialiseReplay" then none else some 1 }

/-- The stub engine whose `RENDERDOC_OpenCaptureFile` returns null. -/
def stub_null_capture_file : Engine := { stub_engine with OpenCaptureFile := none }

/-- The stub engine whose `OpenFile` reports a failure, on a new capture-file handle. -/
def stub_open_file_fails : Engine :=
  { stub_engine with OpenCaptureFile := some 21, OpenFile_OK := false }

/-- The stub engine whose `OpenCapture` reports a failure, on a new capture-file handle. -/
def stub_open_capture_fails : Engine :=
  { stub_engine with OpenCaptureFile := some 21, OpenCapture_OK := false, OpenCapture_controller := none }

/-- The stub engine handing out a second capture file and controller. -/
def stub_second_capture : Engine :=
  { stub_engine with OpenCaptureFile := some 21, OpenCapture_controller := some 22 }

/-- The session of the stub engine after one successful `open_capture`. -/
def opened_world : World :=
  run (replay_session_new stub_engine "" {}).world [(stub_engine, Op.open_capture "a.rdc")]

/-! ## Classification of calls -/

/-- The calls that bind or invoke the engine's replay-initialisation entry point. -/
def Call.is_init : Call → Bool
  | .InitialiseReplay => true
  | .dlsym _ name => decide (name = "RENDERDOC_InitialiseReplay")
  | _ => false

/-- The `dlopen` calls. -/
def Call.is_dlopen : Call → Bool
  | .dlopen _ => true
  | _ => false

/-- A sequence of `open_capture` calls on one session, each with its own
engine behaviour and capture path. -/
def open_calls (calls : List (Engine × String)) : List (Engine × Op) :=
  calls.map (fun c => (c.1, Op.open_capture c.2))

/-! ## JSON text: the reading side

These definitions follow the wording of the specification, not the source:
they are what the emitted text is compared with. -/

/-- Decoding of a JSON string literal after its opening quote, as the spec
words it: `\\` is a backslash, `\"` a double quote, `\n`, `\r`, `\t` are line
feed, carriage return and tab, every other character stands for itself, and
the first unescaped double quote ends the literal, which must end the input.
The flag tells whether the previous character was an unconsumed backslash. -/
def json_decode_body : Bool → Text → Option Text
  | _, [] => none
  | false, c :: rest =>
    if c = dquote then (if rest = [] then some [] else none)
    else if c = backslash then json_decode_body true rest
    else (json_decode_body false rest).map (fun s => c :: s)
  | true, c :: rest =>
    if c = backslash then (json_decode_body false rest).map (fun s => backslash :: s)
    else if c = dquote then (json_decode_body false rest).map (fun s => dquote :: s)
    else if c = 'n' then (json_decode_body false rest).map (fun s => newline :: s)
    else if c = 'r' then (json_decode_body false rest).map (fun s => carriage_return :: s)
    else if c = 't' then (json_decode_body false rest).map (fun s => tab :: s)
    else none

/-- Decoding of a whole JSON string literal, quotes included. -/
def json_decode_string : Text → Option Text
  | [] => none
  | c :: rest => if c = dquote then json_decode_body false rest else none

/-- The JSON object of one texture as the spec lays it out: the nine keys
`index, name, width, height, depth, mips, arraysize, msSamp, byteSize` in this
order, the name as an escaped string literal and the numbers in decimal. -/
def texture_object (index : Nat) (name : Text) (t : TextureDescription) : Text :=
  "\x7b".data ++ "\"index\":".data ++ to_string index
    ++ ",\"name\":\"".data ++ json_escape name ++ "\"".data
    ++ ",\"width\":".data ++ to_string t.width
    ++ ",\"height\":".data ++ to_string t.height
    ++ ",\"depth\":".data ++ to_string t.depth
    ++ ",\"mips\":".data ++ to_string t.mips
    ++ ",\"arraysize\":".data ++ to_string t.arraysize
    ++ ",\"msSamp\":".data ++ to_string t.msSamp
    ++ ",\"byteSize\":".data ++ to_string t.byteSize
    ++ "\x7d".data

/-- The objects of a texture list whose first element sits at position `i`:
position modulo 2^32 as the index, the looked-up name, the texture's values. -/
def texture_objects (name_by_id : NameMap) (i : Nat) (textures : List TextureDescription) :
    List Text :=
  (textures.enumFrom i).map
    (fun it => texture_object (it.1 % 2 ^ 32) (texture_name name_by_id it.2) it.2)

/-- A texture without a resource entry, for the concrete instances. -/
def plain_texture : TextureDescription :=
  { resourceId := 1, width := 1, height := 1, depth := 1, mips := 1, arraysize := 1,
    msSamp := 1, byteSize := 4 }

/-! ## The JSON grammar (RFC 8259) as a recogniser

Modelled from the standard the spec refers to ("standard JSON"): a pushdown
recogniser that reads the text one character at a time.  The stack holds the
open containers, `true` for an object and `false` for an array. -/

/-- The left brace. -/
def lbrace : Char := Char.ofNat 123
/-- The right brace. -/
def rbrace : Char := Char.ofNat 125

/-- JSON whitespace: space, tab, line feed, carriage return. -/
def json_ws (c : Char) : Bool :=
  c = ' ' || c = tab || c = newline || c = carriage_return

/-- A decimal digit. -/
def json_digit (c : Char) : Bool := 48 ≤ c.toNat && c.toNat ≤ 57

/-- A hexadecimal digit. -/
def json_hex (c : Char) : Bool :=
  json_digit c || (65 ≤ c.toNat && c.toNat ≤ 70) || (97 ≤ c.toNat && c.toNat ≤ 102)

/-- Where the recogniser stands in the grammar. -/
inductive JsonState
  | value
  | array_start
  | object_start
  | key
  | colon
  | after_value
  | string (is_key : Bool)
  | escape (is_key : Bool)
  | hex (remaining : Nat) (is_key : Bool)
  | minus
  | zero
  | int
  | frac_start
  | frac
  | exp_start
  | exp_sign
  | exp
  | literal (rest : Text)
  deriving DecidableEq, Repr

/-- After a complete value: whitespace, or a comma or the closing bracket of
the innermost open container. -/
def json_after_value (stack : List Bool) (c : Char) : Option (JsonState × List Bool) :=
  if json_ws c then some (.after_value, stack)
  else
    match stack with
    | [] => none
    | true :: rest =>
      if c = ',' then some (.key, true :: rest)
      else if c = rbrace then some (.after_value, rest)
      else none
    | false :: rest =>
      if c = ',' then some (.value, false :: rest)
      else if c = ']' then some (.after_value, rest)
      else none

/-- The first character of a value. -/
def json_start_value (stack : List Bool) (c : Char) : Option (JsonState × List Bool) :=
  if c = lbrace then some (.object_start, true :: stack)
  else if c = '[' then some (.array_start, false :: stack)
  else if c = dquote then some (.string false, stack)
  else if c = '-' then some (.minus, stack)
  else if c = '0' then some (.zero, stack)
  else if json_digit c then some (.int, stack)
  else if c = 't' then some (.literal "rue".data, stack)
  else if c = 'f' then some (.literal "alse".data, stack)
  else if c = 'n' then some (.literal "ull".data, stack)
  else none

/-- One character of input.  Inside a string every character below U+0020
must be escaped, and an escape is one of the eight short forms or `u` with
four hexadecimal digits. -/
def json_step (st : JsonState) (stack : List Bool) (c : Char) : Option (JsonState × List Bool) :=
  match st with
  | .value => if json_ws c then some (.value, stack) else json_start_value stack c
  | .array_start =>
    if json_ws c then some (.array_start, stack)
    else if c = ']' then
      match stack with
      | false :: rest => some (.after_value, rest)
      | _ => none
    else json_start_value stack c
  | .object_start =>
    if json_ws c then some (.object_start, stack)
    else if c = rbrace then
      match stack with
      | true :: rest => some (.after_value, rest)
      | _ => none
    else if c = dquote then some (.string true, stack)
    else none
  | .key =>
    if json_ws c then some (.key, stack)
    else if c = dquote then some (.string true, stack)
    else none
  | .colon =>
    if json_ws c then some (.colon, stack)
    else if c = ':' then some (.value, stack)
    else none
  | .after_value => json_after_value stack c
  | .string k =>
    if c = dquote then some (if k then .colon else .after_value, stack)
    else if c = backslash then some (.escape k, stack)
    else if c.toNat < 32 then none
    else some (.string k, stack)
  | .escape k =>
    if c = dquote || c = backslash || c = '/' || c = 'b' || c = 'f' || c = 'n' || c = 'r'
        || c = 't' then some (.string k, stack)
    else if c = 'u' then some (.hex 4 k, stack)
    else none
  | .hex n k =>
    if json_hex c then (if n ≤ 1 then some (.string k, stack) else some (.hex (n - 1) k, stack))
    else none
  | .minus =>
    if c = '0' then some (.zero, stack)
    else if json_digit c then some (.int, stack)
    else none
  | .zero =>
    if c = '.' then some (.frac_start, stack)
    else if c = 'e' || c = 'E' then some (.exp_start, stack)
    else json_after_value stack c
  | .int =>
    if json_digit c then some (.int, stack)
    else if c = '.' then some (.frac_start, stack)
    else if c = 'e' || c = 'E' then some (.exp_start, stack)
    else json_after_value stack c
  | .frac_start => if json_digit c then some (.frac, stack) else none
  | .frac =>
    if json_digit c then some (.frac, stack)
    else if c = 'e' || c = 'E' then some (.exp_start, stack)
    else json_after_value stack c
  | .exp_start =>
    if c = '+' || c = '-' then some (.exp_sign, stack)
    else if json_digit c then some (.exp, stack)
    else none
  | .exp_sign => if json_digit c then some (.exp, stack) else none
  | .exp => if json_digit c then some (.exp, stack) else json_after_value stack c
  | .literal rest =>
    match rest with
    | [] => json_after_value stack c
    | r :: rs => if c = r then some (.literal rs, stack) else none

/-- The recogniser run over a text. -/
def json_run : JsonState → List Bool → Text → Option (JsonState × List Bool)
  | st, stack, [] => some (st, stack)
  | st, stack, c :: rest =>
    match json_step st stack c with
    | none => none
    | some next => json_run next.1 next.2 rest

/-- The states in which a value is complete. -/
def json_complete : JsonState → Bool
  | .after_value => true
  | .zero => true
  | .int => true
  | .frac => true
  | .exp => true
  | .literal [] => true
  | _ => false

/-- The text is one JSON value, with optional whitespace around it. -/
def is_json (s : Text) : Bool :=
  match json_run .value [] s with
  | some (st, []) => json_complete st
  | _ => false

/-- The text is a JSON array: a JSON value whose first character other than
whitespace is the opening square bracket. -/
def is_json_array (s : Text) : Bool :=
  is_json s && ((s.dropWhile json_ws).head? == some '[')

/-- The value of a decimal digit character. -/
def digit_value (c : Char) : Nat := c.toNat - 48

/-- Reading a numeral in base ten, most significant digit first. -/
def decimal_value (s : Text) : Nat := s.foldl (fun a c => 10 * a + digit_value c) 0

/-- An unpadded decimal numeral: one digit, or digits of which the first is not zero. -/
def is_decimal : Text → Bool
  | [] => false
  | [c] => json_digit c
  | c :: rest => json_digit c && c != '0' && rest.all json_digit

/-- The characters `json_escape` leaves valid inside a JSON string: everything
from U+0020 on, and the three control characters it escapes. -/
def json_plain (c : Char) : Bool :=
  decide (32 ≤ c.toNat) || c = newline || c = carriage_return || c = tab

/-! ## Lazy discovery: the reading side

These definitions follow the wording of the specification: candidates tried
in order, the first that loads wins. -/

/-- Trying paths in order and stopping at the first that loads: the handle
obtained, if any, and the paths attempted. -/
def first_loadable (dlopen : String → Option Handle) : List String → Option Handle × List String
  | [] => (none, [])
  | p :: ps =>
    match dlopen p with
    | some h => (some h, [p])
    | none => ((first_loadable dlopen ps).1, p :: (first_loadable dlopen ps).2)

/-- The candidates of the two environment stages: the file named by
`RENDERDOG_REPLAY_RENDERDOC_SO` if set, then the directory named by
`RENDERDOG_RENDERDOC_DIR` if set, joined with `librenderdoc.so.1` and then
with `librenderdoc.so`. -/
def env_candidates (e : Engine) : List String :=
  (match e.getenv "RENDERDOG_REPLAY_RENDERDOC_SO" with
    | some so => [so]
    | none => [])
  ++ (match e.getenv "RENDERDOG_RENDERDOC_DIR" with
      | some dir => [dir_base dir ++ "librenderdoc.so.1", dir_base dir ++ "librenderdoc.so"]
      | none => [])

/-- The candidate paths of `ReplaySession::ensure_loaded`, in order: the
environment stages, then the bare names `librenderdoc.so`, `librenderdoc.so.1`. -/
def ensure_loaded_candidates (e : Engine) : List String :=
  env_candidates e ++ ["librenderdoc.so", "librenderdoc.so.1"]

/-- The candidate paths of `get_renderdoc_module`, in order: the environment
stages, then the bare names `librenderdoc.so.1`, `librenderdoc.so`. -/
def get_renderdoc_module_candidates (e : Engine) : List String :=
  env_candidates e ++ ["librenderdoc.so.1", "librenderdoc.so"]

/-- A stub engine with both environment variables set: the named file does
not load, the directory holds a loadable `librenderdoc.so` only. -/
def stub_env_dir : Engine :=
  { stub_engine with
    getenv := fun name =>
      if name = "RENDERDOG_REPLAY_RENDERDOC_SO" then some "/opt/rd/custom.so"
      else if name = "RENDERDOG_RENDERDOC_DIR" then some "/opt/rd"
      else none,
    dlopen := fun p => if p = "/opt/rd/librenderdoc.so" then some 9 else none }

/-- A stub engine without environment variables on which both bare names
load, as different handles. -/
def stub_both_names : Engine :=
  { stub_engine with
    dlopen := fun p =>
      if p = "librenderdoc.so" then some 7
      else if p = "librenderdoc.so.1" then some 8
      else none }

/-- A stub engine that loads only the explicit path `/opt/rd/librenderdoc.so`
(as handle 7) and resolves the two allocator symbols of a library `l` to the
functions `100 * l + 1` and `100 * l + 2`; its allocator returns block 500. -/
def stub_allocators : Engine :=
  { stub_engine with
    dlopen := fun p => if p = "/opt/rd/librenderdoc.so" then some 7 else none,
    dlsym := fun lib name =>
      match lib with
      | some l =>
        if name = "RENDERDOC_AllocArrayMem" then some (100 * l + 1)
        else if name = "RENDERDOC_FreeArrayMem" then some (100 * l + 2)
        else some 1
      | none => none,
    alloc_result := some 500 }

/-- The stub engine on which `librenderdoc.so` loads but the engine's
`RENDERDOC_AllocArrayMem` symbol does not resolve. -/
def stub_no_alloc_symbol : Engine :=
  { stub_engine with
    dlsym := fun _ name => if name = "RENDERDOC_AllocArrayMem" then none else some 1 }

/-- The stub engine on which `RENDERDOC_ShutdownReplay` does not resolve. -/
def stub_no_shutdown_symbol : Engine :=
  { stub_engine with
    dlsym := fun _ name => if name = "RENDERDOC_ShutdownReplay" then none else some 1 }

/-- The stub engine whose `RENDERDOC_ShutdownReplay` throws. -/
def stub_shutdown_throws : Engine := { stub_engine with ShutdownReplay_throws := true }

/-- The stub engine on which no library loads and no symbol resolves, while
the engine allocator behind an already resolved pointer returns block 500. -/
def stub_nothing_resolves : Engine :=
  { stub_engine with dlopen := fun _ => none, dlsym := fun _ _ => none, alloc_result := some 500 }

/-! ## Theorems -/

set_option maxRecDepth 65536

theorem ensure_loaded_sess (e : Engine) (w : World) :
    (ensure_loaded e w).world.sess.replay_initialised_ = w.sess.replay_initialised_
    ∧ (ensure_loaded e w).world.sess.capture_file_ = w.sess.capture_file_
    ∧ (ensure_loaded e w).world.sess.controller_ = w.sess.controller_ := by
  unfold ensure_loaded
  split
  · simp
  · split
    · simp [store_lib]
    · split
      · simp [store_lib]
      · split <;> simp [store_lib]

theorem init_replay_sess (e : Engine) (w : World) :
    (init_replay e w).world.sess.lib_ = w.sess.lib_
    ∧ (init_replay e w).world.sess.capture_file_ = w.sess.capture_file_
    ∧ (init_replay e w).world.sess.controller_ = w.sess.controller_ := by
  unfold init_replay
  split
  · simp
  · split <;> simp

theorem open_capture_file_controller (e : Engine) (p : String) (w : World) :
    (open_capture_file e p w).world.sess.controller_ =
      if (open_capture_file e p w).result = .ok () then e.OpenCapture_controller
      else w.sess.controller_ := by
  unfold open_capture_file
  split
  · simp
  · split
    · simp
    · split
      · simp
      · split <;> simp

theorem open_capture_controller (e : Engine) (p : String) (w : World) :
    (open_capture e p w).world.sess.controller_ =
      if (open_capture e p w).result = .ok () then e.OpenCapture_controller
      else w.sess.controller_ := by
  unfold open_capture
  split
  · simp [(ensure_loaded_sess e w).2.2]
  · split
    · simp [(init_replay_sess e _).2.2, (ensure_loaded_sess e w).2.2]
    · simp only [open_capture_file_controller, (init_replay_sess e _).2.2, (ensure_loaded_sess e w).2.2]

theorem shutdown_controller_fst (s : ReplaySession) :
    (shutdown_controller s).1 = { s with controller_ := none } := by
  obtain ⟨l, r, cf, c⟩ := s
  cases c <;> rfl

theorem shutdown_capture_file_fst (s : ReplaySession) :
    (shutdown_capture_file s).1 = { s with capture_file_ := none } := by
  obtain ⟨l, r, cf, c⟩ := s
  cases cf <;> rfl

theorem shutdown_replay_fst (e : Engine) (s : ReplaySession) :
    (shutdown_replay e s).1 = { s with replay_initialised_ := false } := by
  obtain ⟨l, r, cf, c⟩ := s
  cases r
  · rfl
  · simp only [shutdown_replay, if_true]
    split
    · rfl
    · split <;> rfl

theorem unload_library_fst (s : ReplaySession) :
    (unload_library s).1 = { s with lib_ := none } := by
  obtain ⟨l, r, cf, c⟩ := s
  cases l <;> rfl

theorem teardown_sess (e : Engine) (w : World) :
    (teardown e w).world.sess = { lib_ := none, replay_initialised_ := false,
                                  capture_file_ := none, controller_ := none } := by
  simp only [teardown, unload_library_fst, shutdown_replay_fst, shutdown_capture_file_fst,
    shutdown_controller_fst]

theorem step_query_world (e : Engine) (q : Op) (w : World) (hq : q.is_query = true) :
    (step e q w).world = w := by
  cases q <;> simp [Op.is_query] at hq <;> rfl

theorem step_controller_none (e : Engine) (op : Op) (w : World)
    (hc : w.sess.controller_ = none)
    (hop : ∀ p, op = Op.open_capture p → (open_capture e p w).result ≠ .ok ()) :
    (step e op w).world.sess.controller_ = none := by
  cases op with
  | open_capture p =>
    have h := open_capture_controller e p w
    simp only [step]
    rw [h, if_neg (hop p rfl), hc]
  | teardown => simp [step, teardown_sess]
  | set_frame_event _ => exact hc
  | list_textures_json => exact hc
  | pick_pixel _ _ _ => exact hc
  | save_texture_png _ _ => exact hc

theorem run_controller_none (ops : List (Engine × Op)) :
    ∀ w : World, w.sess.controller_ = none → no_open_succeeded w ops = true →
      (run w ops).sess.controller_ = none := by
  induction ops with
  | nil => intro w hc _; exact hc
  | cons a rest ih =>
    intro w hc hops
    obtain ⟨e, op⟩ := a
    simp only [no_open_succeeded, Bool.and_eq_true] at hops
    refine ih _ (step_controller_none e op w hc ?_) hops.2
    intro p hp
    subst hp
    simpa using hops.1

theorem ensure_opened_no_controller (s : ReplaySession) (hc : s.controller_ = none) :
    ∃ err, ensure_opened s = .error err ∧ is_not_ready err = true := by
  unfold ensure_opened
  split
  · exact ⟨_, rfl, rfl⟩
  · split
    · exact ⟨_, rfl, rfl⟩
    · rw [hc]; exact ⟨_, rfl, rfl⟩

theorem replay_session_new_sess (e : Engine) (path : String) (g : Globals) :
    (replay_session_new e path g).world.sess.replay_initialised_ = false
    ∧ (replay_session_new e path g).world.sess.capture_file_ = none
    ∧ (replay_session_new e path g).world.sess.controller_ = none := by
  unfold replay_session_new
  split
  · split <;> simp [store_lib]
  · simp

theorem query_no_controller (e : Engine) (q : Op) (w : World) (hq : q.is_query = true)
    (hc : w.sess.controller_ = none) :
    ∃ err, (step e q w).result = .error err ∧ is_not_ready err = true
      ∧ (step e q w).trace = [] := by
  obtain ⟨err, herr, hnr⟩ := ensure_opened_no_controller w.sess hc
  refine ⟨err, ?_, hnr, ?_⟩ <;>
    cases q <;> simp [Op.is_query] at hq <;>
    simp [step, set_frame_event, list_textures_json, pick_pixel, save_texture_png, herr, Except.map]

/-- C1: starting from the session made by `replay_session_new`, after any
sequence of operations in which no `open_capture` call returned normally
(whatever stage each failed at), each of `set_frame_event`,
`list_textures_json`, `pick_pixel` and `save_texture_png` fails with one of the
not-ready errors of `ensure_opened` and makes no call at all on the engine, so
none on the controller. -/
theorem queries_before_open_not_ready (e0 : Engine) (renderdoc_path : String) (g : Globals)
    (ops : List (Engine × Op))
    (hops : no_open_succeeded (replay_session_new e0 renderdoc_path g).world ops = true)
    (e : Engine) (q : Op) (hq : q.is_query = true) :
    ∃ err,
      (step e q (run (replay_session_new e0 renderdoc_path g).world ops)).result = .error err
      ∧ is_not_ready err = true
      ∧ (step e q (run (replay_session_new e0 renderdoc_path g).world ops)).trace = [] :=
  query_no_controller e q _ hq
    (run_controller_none ops _ (replay_session_new_sess e0 renderdoc_path g).2.2 hops)

theorem ensure_loaded_of_lib (e : Engine) (w : World) (h : w.sess.lib_.isSome = true) :
    ensure_loaded e w = { result := .ok (), world := w, trace := [] } := by
  unfold ensure_loaded
  rw [if_pos h]

theorem ensure_loaded_lib (e : Engine) (w : World) :
    (w.sess.lib_.isSome = true → (ensure_loaded e w).world.sess.lib_.isSome = true)
    ∧ ((ensure_loaded e w).result = .ok () → (ensure_loaded e w).world.sess.lib_.isSome = true) := by
  unfold ensure_loaded
  split
  · simp_all
  · split
    · simp [store_lib]
    · split
      · simp [store_lib]
      · split <;> simp_all [store_lib]

theorem init_replay_of_initialised (e : Engine) (w : World) (h : w.sess.replay_initialised_ = true) :
    init_replay e w = { result := .ok (), world := w, trace := [] } := by
  unfold init_replay
  rw [if_pos h]

theorem init_replay_flag (e : Engine) (w : World) :
    ((init_replay e w).result = .ok () → (init_replay e w).world.sess.replay_initialised_ = true)
    ∧ ((init_replay e w).world.sess.replay_initialised_ = true →
        w.sess.replay_initialised_ = true ∨ (init_replay e w).result = .ok ()) := by
  unfold init_replay
  split
  · simp_all
  · split <;> simp_all

theorem open_capture_file_sess (e : Engine) (p : String) (w : World) :
    (open_capture_file e p w).world.sess.lib_ = w.sess.lib_
    ∧ (open_capture_file e p w).world.sess.replay_initialised_ = w.sess.replay_initialised_
    ∧ (open_capture_file e p w).world.sess.capture_file_ =
        (if (e.dlsym w.sess.lib_ "RENDERDOC_OpenCaptureFile").isSome then e.OpenCaptureFile
         else w.sess.capture_file_) := by
  unfold open_capture_file load_symbol
  cases h : e.dlsym w.sess.lib_ "RENDERDOC_OpenCaptureFile" with
  | none => simp
  | some sym =>
    simp only [Option.isSome_some, if_true]
    split
    · simp_all
    · split
      · simp_all
      · split <;> simp_all

theorem open_capture_of_initialised (e : Engine) (p : String) (w : World)
    (hl : w.sess.lib_.isSome = true) (hr : w.sess.replay_initialised_ = true) :
    (open_capture e p w).result = (open_capture_file e p w).result
    ∧ (open_capture e p w).world = (open_capture_file e p w).world
    ∧ (open_capture e p w).trace = (open_capture_file e p w).trace := by
  unfold open_capture
  simp [ensure_loaded_of_lib e w hl, init_replay_of_initialised e w hr]

theorem ensure_loaded_error_world (e : Engine) (w : World) (err : ReplayError)
    (h : (ensure_loaded e w).result = .error err) : (ensure_loaded e w).world = w := by
  revert h
  unfold ensure_loaded
  split
  · simp
  · split
    · simp
    · split
      · simp
      · split <;> simp

theorem init_replay_error_world (e : Engine) (w : World) (err : ReplayError)
    (h : (init_replay e w).result = .error err) : (init_replay e w).world = w := by
  revert h
  unfold init_replay
  split
  · simp
  · split <;> simp

theorem open_capture_file_ok (e : Engine) (p : String) (w : World)
    (h : (open_capture_file e p w).result = .ok ()) :
    (e.dlsym w.sess.lib_ "RENDERDOC_OpenCaptureFile").isSome = true
    ∧ e.OpenCaptureFile.isSome = true ∧ e.OpenFile_OK = true ∧ e.OpenCapture_OK = true
    ∧ e.OpenCapture_controller.isSome = true := by
  revert h
  unfold open_capture_file load_symbol
  cases e.dlsym w.sess.lib_ "RENDERDOC_OpenCaptureFile" with
  | none => simp
  | some sym =>
    cases e.OpenCaptureFile with
    | none => simp
    | some cf =>
      cases e.OpenFile_OK <;> cases e.OpenCapture_OK <;> cases e.OpenCapture_controller <;> simp

theorem open_capture_loaded_invariant (e : Engine) (p : String) (w : World)
    (h : loaded_invariant w.sess) : loaded_invariant (open_capture e p w).world.sess := by
  have hl := ensure_loaded_lib e w
  have hs := ensure_loaded_sess e w
  have h1 : loaded_invariant (ensure_loaded e w).world.sess := by
    unfold loaded_invariant at h ⊢
    rw [hs.1, hs.2.1]
    exact ⟨h.1, fun hr => hl.1 (h.2 hr)⟩
  unfold open_capture
  split
  · exact h1
  · rename_i u hok
    have hlib := hl.2 hok
    have hi := init_replay_sess e (ensure_loaded e w).world
    have hf := init_replay_flag e (ensure_loaded e w).world
    split
    · rename_i err herr
      rw [init_replay_error_world e _ err herr]
      exact h1
    · rename_i u2 hok2
      have ho := open_capture_file_sess e p (init_replay e (ensure_loaded e w).world).world
      unfold loaded_invariant
      simp only [ho.1, ho.2.1, hi.1, hf.1 hok2, hlib, implies_true, and_self]

theorem open_capture_invariant (e : Engine) (p : String) (w : World)
    (h : session_invariant w.sess) :
    session_invariant (open_capture e p w).world.sess ↔
      ¬ (w.sess.controller_.isSome = true
          ∧ (e.dlsym w.sess.lib_ "RENDERDOC_OpenCaptureFile").isSome = true
          ∧ e.OpenCaptureFile = none) := by
  have hlow := open_capture_loaded_invariant e p w ⟨h.2.1, h.2.2⟩
  have hc := open_capture_controller e p w
  cases hctrl : w.sess.controller_ with
  | some c =>
    have hcf := h.1 (by simp [hctrl])
    have hri := h.2.1 hcf
    have hlib := h.2.2 hri
    obtain ⟨hres, hw, -⟩ := open_capture_of_initialised e p w hlib hri
    have ho := open_capture_file_sess e p w
    have hok := open_capture_file_ok e p w
    unfold session_invariant
    rw [hw] at hlow hc ⊢
    rw [hres] at hc
    refine ⟨fun hinv hbad => ?_, fun hgood => ⟨?_, hlow.1, hlow.2⟩⟩
    · have h1 := hinv.1
      rw [ho.2.2, if_pos hbad.2.1, hbad.2.2, hc] at h1
      by_cases hr : (open_capture_file e p w).result = .ok ()
      · have := (hok hr).2.1
        rw [hbad.2.2] at this
        simp at this
      · rw [if_neg hr, hctrl] at h1
        simp at h1
    · intro _
      rw [ho.2.2]
      by_cases hd : (e.dlsym w.sess.lib_ "RENDERDOC_OpenCaptureFile").isSome = true
      · rw [if_pos hd]
        cases hcfe : e.OpenCaptureFile with
        | none => exact absurd ⟨rfl, hd, hcfe⟩ hgood
        | some cf => rfl
      · rw [if_neg hd]; exact hcf
  | none =>
    simp only [Option.isSome_none, Bool.false_eq_true, false_and, not_false_eq_true, iff_true]
    refine ⟨?_, hlow.1, hlow.2⟩
    intro hsome
    rw [hc, hctrl] at hsome
    by_cases hr : (open_capture e p w).result = .ok ()
    · -- success stores both handles
      revert hr
      unfold open_capture
      split
      · simp
      · split
        · simp
        · intro hr
          have ho := open_capture_file_sess e p (init_replay e (ensure_loaded e w).world).world
          have hok := open_capture_file_ok e p _ hr
          simp only [ho.2.2, hok.1, if_true, hok.2.1]
    · rw [if_neg hr] at hsome
      simp at hsome

/-- C1, at the stub: after `open_capture` calls failing at library load, symbol
binding, null capture file, OpenFile and OpenCapture, `pick_pixel` is not ready. -/
theorem queries_before_open_not_ready_witness :
    ∃ err,
      (step stub_engine (Op.pick_pixel 0 1 1)
        (run (replay_session_new stub_engine "" {}).world
          [(stub_no_library, Op.open_capture "a.rdc"),
           (stub_no_init_symbol, Op.open_capture "a.rdc"),
           (stub_null_capture_file, Op.open_capture "a.rdc"),
           (stub_engine, Op.list_textures_json),
           (stub_open_file_fails, Op.open_capture "a.rdc"),
           (stub_open_capture_fails, Op.open_capture "a.rdc")])).result = .error err
      ∧ is_not_ready err = true
      ∧ (step stub_engine (Op.pick_pixel 0 1 1)
        (run (replay_session_new stub_engine "" {}).world
          [(stub_no_library, Op.open_capture "a.rdc"),
           (stub_no_init_symbol, Op.open_capture "a.rdc"),
           (stub_null_capture_file, Op.open_capture "a.rdc"),
           (stub_engine, Op.list_textures_json),
           (stub_open_file_fails, Op.open_capture "a.rdc"),
           (stub_open_capture_fails, Op.open_capture "a.rdc")])).trace = [] :=
  queries_before_open_not_ready stub_engine "" {} _ (by decide) stub_engine (Op.pick_pixel 0 1 1) rfl

/-- C3: on an opened session, `pick_pixel` with an index at or beyond the number
of textures the controller returns fails with the index-out-of-range error for
all `x`, `y`, having called only `GetTextures`; with an index below that number
it does not raise that error and calls `PickPixel` on the indexed texture's
resource id at subresource (0, 0, 0). -/
theorem pick_pixel_index_check (e : Engine) (s : ReplaySession) (c : Handle)
    (texture_index x y : Nat) (hopen : ensure_opened s = .ok c) :
    (e.GetTextures.length ≤ texture_index →
      pick_pixel e s texture_index x y
        = (.error .texture_index_out_of_range, [Call.GetTextures c]))
    ∧ (∀ h : texture_index < e.GetTextures.length,
        (pick_pixel e s texture_index x y).1 ≠ .error .texture_index_out_of_range
        ∧ (pick_pixel e s texture_index x y).2
            = [Call.GetTextures c,
               Call.PickPixel c (e.GetTextures.get ⟨texture_index, h⟩).resourceId x y 0 0 0]) := by
  constructor
  · intro h
    unfold pick_pixel
    rw [hopen]
    simp only [ge_iff_le, h, dite_true]
  · intro h
    unfold pick_pixel
    rw [hopen]
    simp [Nat.not_le.mpr h]

/-- C3, at the stub with three textures: index 3 is refused before any
`PickPixel` call, index 2 is not refused and picks on resource 3. -/
theorem pick_pixel_index_check_witness :
    pick_pixel stub_engine opened_world.sess 3 5 6
        = (.error .texture_index_out_of_range, [Call.GetTextures 12])
    ∧ (pick_pixel stub_engine opened_world.sess 2 5 6).1 ≠ .error .texture_index_out_of_range
    ∧ (pick_pixel stub_engine opened_world.sess 2 5 6).2
        = [Call.GetTextures 12, Call.PickPixel 12 3 5 6 0 0 0] :=
  ⟨(pick_pixel_index_check stub_engine opened_world.sess 12 3 5 6 (by decide)).1 (by decide),
   ((pick_pixel_index_check stub_engine opened_world.sess 12 2 5 6 (by decide)).2 (by decide)).1,
   ((pick_pixel_index_check stub_engine opened_world.sess 12 2 5 6 (by decide)).2 (by decide)).2⟩

theorem dlopen_first_trace (e : Engine) (base : String) (names : List String) :
    ∀ c ∈ (dlopen_first e base names).2, c.is_dlopen = true := by
  induction names with
  | nil => simp [dlopen_first]
  | cons n rest ih =>
    unfold dlopen_first
    split
    · simp [Call.is_dlopen]
    · intro c hc
      simp only [List.mem_cons] at hc
      rcases hc with rfl | hc
      · rfl
      · exact ih c hc

theorem ensure_loaded_trace_dlopen (e : Engine) (w : World) :
    ∀ c ∈ (ensure_loaded e w).trace, c.is_dlopen = true := by
  have h1 : ∀ c ∈ (dlopen_env_so e).2, c.is_dlopen = true := by
    unfold dlopen_env_so
    split <;> simp [Call.is_dlopen]
  have h2 : ∀ c ∈ (dlopen_env_dir e).2, c.is_dlopen = true := by
    unfold dlopen_env_dir
    split
    · exact dlopen_first_trace e _ _
    · simp
  have h3 := dlopen_first_trace e "" ["librenderdoc.so", "librenderdoc.so.1"]
  unfold ensure_loaded
  split
  · simp
  · split
    · exact h1
    · split
      · intro c hc
        rcases List.mem_append.mp hc with hc | hc
        · exact h1 c hc
        · exact h2 c hc
      · split <;>
        · intro c hc
          rcases List.mem_append.mp hc with hc | hc
          · rcases List.mem_append.mp hc with hc | hc
            · exact h1 c hc
            · exact h2 c hc
          · exact h3 c hc

theorem ensure_loaded_trace (e : Engine) (w : World) :
    ∀ c ∈ (ensure_loaded e w).trace, c.is_init = false := by
  intro c hc
  have := ensure_loaded_trace_dlopen e w c hc
  cases c <;> simp_all [Call.is_dlopen, Call.is_init]

theorem open_capture_file_trace (e : Engine) (p : String) (w : World) :
    ∀ c ∈ (open_capture_file e p w).trace, c.is_init = false := by
  unfold open_capture_file load_symbol
  cases e.dlsym w.sess.lib_ "RENDERDOC_OpenCaptureFile" with
  | none => simp [Call.is_init]
  | some sym =>
    cases e.OpenCaptureFile with
    | none => simp [Call.is_init]
    | some cf =>
      simp only
      split
      · simp [Call.is_init]
      · split <;> simp [Call.is_init]

theorem count_init_of_not_is_init (tr : List Call) (h : ∀ c ∈ tr, c.is_init = false) :
    tr.count Call.InitialiseReplay = 0 := by
  rw [List.count_eq_zero]
  intro hmem
  have := h _ hmem
  simp [Call.is_init] at this

theorem init_replay_trace (e : Engine) (w : World) :
    (w.sess.replay_initialised_ = true → (init_replay e w).trace = [])
    ∧ (init_replay e w).trace.count Call.InitialiseReplay ≤ 1
    ∧ ((init_replay e w).trace.count Call.InitialiseReplay = 1 →
        (init_replay e w).result = .ok ()) := by
  unfold init_replay load_symbol
  cases hr : w.sess.replay_initialised_ with
  | true => simp
  | false =>
    cases e.dlsym w.sess.lib_ "RENDERDOC_InitialiseReplay" with
    | none => simp
    | some sym => simp

theorem open_capture_init (e : Engine) (p : String) (w : World) :
    (w.sess.replay_initialised_ = true →
      (∀ c ∈ (open_capture e p w).trace, c.is_init = false)
      ∧ (open_capture e p w).world.sess.replay_initialised_ = true)
    ∧ (open_capture e p w).trace.count Call.InitialiseReplay ≤ 1
    ∧ ((open_capture e p w).trace.count Call.InitialiseReplay = 1 →
        (open_capture e p w).world.sess.replay_initialised_ = true) := by
  have hl := ensure_loaded_trace e w
  have hs := ensure_loaded_sess e w
  have hi := init_replay_trace e (ensure_loaded e w).world
  have hf := init_replay_flag e (ensure_loaded e w).world
  have ho := open_capture_file_trace e p (init_replay e (ensure_loaded e w).world).world
  have hos := open_capture_file_sess e p (init_replay e (ensure_loaded e w).world).world
  have hcl := count_init_of_not_is_init _ hl
  have hco := count_init_of_not_is_init _ ho
  unfold open_capture
  split
  · refine ⟨fun hr => ⟨hl, by rw [hs.1]; exact hr⟩, by simp [hcl], by simp [hcl]⟩
  · split
    · rename_i err herr
      refine ⟨fun hr => ?_, ?_, ?_⟩
      · have hnil := hi.1 (by rw [hs.1]; exact hr)
        rw [init_replay_of_initialised e _ (by rw [hs.1]; exact hr)] at herr
        simp at herr
      · simp only [List.count_append, hcl, Nat.zero_add]
        exact hi.2.1
      · simp only [List.count_append, hcl, Nat.zero_add]
        intro h1
        have := hi.2.2 h1
        rw [this] at herr
        simp at herr
    · rename_i u hok
      have hflag := hf.1 hok
      refine ⟨fun hr => ⟨?_, by rw [hos.2.1]; exact hflag⟩, ?_, fun _ => by rw [hos.2.1]; exact hflag⟩
      · have hnil := hi.1 (by rw [hs.1]; exact hr)
        intro c hc
        simp only [hnil, List.append_nil, List.mem_append] at hc
        rcases hc with hc | hc
        · exact hl c hc
        · exact ho c hc
      · simp only [List.count_append, hcl, hco, Nat.zero_add, Nat.add_zero]
        exact hi.2.1

/-- C8: over any sequence of `open_capture` calls on one session, from any
state and under any engine behaviour, `RENDERDOC_InitialiseReplay` is invoked
at most once; and starting from a session whose `replay_initialised_` is true
no call of the sequence binds or invokes it. -/
theorem init_replay_at_most_once (calls : List (Engine × String)) :
    ∀ w : World,
      (run_trace w (open_calls calls)).count Call.InitialiseReplay ≤ 1
      ∧ (w.sess.replay_initialised_ = true →
          ∀ c ∈ run_trace w (open_calls calls), c.is_init = false) := by
  induction calls with
  | nil => intro w; simp [open_calls, run_trace]
  | cons a rest ih =>
    intro w
    obtain ⟨e, p⟩ := a
    have h1 := open_capture_init e p w
    have ih1 := ih (open_capture e p w).world
    simp only [open_calls, List.map_cons, run_trace, step, List.count_append, List.mem_append] at ih1 ⊢
    have hall : w.sess.replay_initialised_ = true →
        ∀ c, (c ∈ (open_capture e p w).trace ∨
          c ∈ run_trace (open_capture e p w).world (open_calls rest)) → c.is_init = false := by
      intro hr c hc
      rcases hc with hc | hc
      · exact (h1.1 hr).1 c hc
      · exact ih1.2 (h1.1 hr).2 c hc
    refine ⟨?_, hall⟩
    rcases Nat.lt_or_ge ((open_capture e p w).trace.count Call.InitialiseReplay) 1 with hlt | hge
    · have h0 : (open_capture e p w).trace.count Call.InitialiseReplay = 0 := by omega
      have := ih1.1
      simp only [open_calls] at this
      omega
    · have h1' : (open_capture e p w).trace.count Call.InitialiseReplay = 1 := by
        have := h1.2.1
        omega
      have hflag := h1.2.2 h1'
      have := count_init_of_not_is_init _ (ih1.2 hflag)
      simp only [open_calls] at this
      omega

/-- C8, at the stub: three calls from a fresh session, and two calls on the
opened session. -/
theorem init_replay_at_most_once_witness :
    opened_world.sess.replay_initialised_ = true
    ∧ (run_trace (replay_session_new stub_engine "" {}).world
        (open_calls [(stub_no_init_symbol, "a.rdc"), (stub_engine, "a.rdc"),
                     (stub_second_capture, "b.rdc")])).count Call.InitialiseReplay ≤ 1
    ∧ ∀ c ∈ run_trace opened_world
        (open_calls [(stub_second_capture, "b.rdc"), (stub_engine, "c.rdc")]), c.is_init = false :=
  ⟨by decide,
   (init_replay_at_most_once _ (replay_session_new stub_engine "" {}).world).1,
   (init_replay_at_most_once _ opened_world).2 (by decide)⟩

/-- C9 (amended): on a session that holds a library, is replay-initialised and
has a controller, a further `open_capture` call keeps the library and the
flag and never clears the controller; it replaces the controller exactly when
it succeeds, and it overwrites the capture-file handle with what
`RENDERDOC_OpenCaptureFile` returned whenever that symbol binds (leaving it
untouched otherwise); afterwards `ensure_opened` succeeds exactly when the
stored capture-file handle is not null. -/
theorem reopen_effect (e : Engine) (p : String) (w : World) (l c : Handle)
    (hl : w.sess.lib_ = some l) (hr : w.sess.replay_initialised_ = true)
    (hc : w.sess.controller_ = some c) :
    (open_capture e p w).world.sess.lib_ = some l
    ∧ (open_capture e p w).world.sess.replay_initialised_ = true
    ∧ (open_capture e p w).world.sess.controller_.isSome = true
    ∧ (open_capture e p w).world.sess.controller_
        = (if (open_capture e p w).result = .ok () then e.OpenCapture_controller else some c)
    ∧ (open_capture e p w).world.sess.capture_file_
        = (if (e.dlsym (some l) "RENDERDOC_OpenCaptureFile").isSome then e.OpenCaptureFile
           else w.sess.capture_file_)
    ∧ ((∃ c', ensure_opened (open_capture e p w).world.sess = .ok c')
        ↔ (open_capture e p w).world.sess.capture_file_.isSome = true) := by
  obtain ⟨hres, hw, -⟩ := open_capture_of_initialised e p w (by simp [hl]) hr
  have ho := open_capture_file_sess e p w
  have hctl := open_capture_file_controller e p w
  have hok := open_capture_file_ok e p w
  rw [hw, hres]
  have hsome : (open_capture_file e p w).world.sess.controller_.isSome = true := by
    rw [hctl]
    by_cases hr' : (open_capture_file e p w).result = .ok ()
    · rw [if_pos hr']; exact (hok hr').2.2.2.2
    · rw [if_neg hr', hc]; rfl
  refine ⟨by rw [ho.1, hl], by rw [ho.2.1, hr], hsome, by rw [hctl, hc], by rw [ho.2.2, hl], ?_⟩
  unfold ensure_opened
  rw [ho.2.1, hr]
  cases hcf : (open_capture_file e p w).world.sess.capture_file_ with
  | none => simp
  | some cf =>
    cases hcc : (open_capture_file e p w).world.sess.controller_ with
    | none => rw [hcc] at hsome; simp at hsome
    | some c' => simp

/-- C9, at the opened stub session reopened with an engine whose OpenFile fails. -/
theorem reopen_effect_witness :
    (open_capture stub_open_file_fails "b.rdc" opened_world).world.sess.lib_ = some 7
    ∧ (open_capture stub_open_file_fails "b.rdc" opened_world).world.sess.replay_initialised_ = true
    ∧ (open_capture stub_open_file_fails "b.rdc" opened_world).world.sess.controller_.isSome = true
    ∧ (open_capture stub_open_file_fails "b.rdc" opened_world).world.sess.controller_
        = (if (open_capture stub_open_file_fails "b.rdc" opened_world).result = .ok ()
            then stub_open_file_fails.OpenCapture_controller else some 12)
    ∧ (open_capture stub_open_file_fails "b.rdc" opened_world).world.sess.capture_file_
        = (if (stub_open_file_fails.dlsym (some 7) "RENDERDOC_OpenCaptureFile").isSome
            then stub_open_file_fails.OpenCaptureFile
           else opened_world.sess.capture_file_)
    ∧ ((∃ c', ensure_opened (open_capture stub_open_file_fails "b.rdc" opened_world).world.sess
          = .ok c')
        ↔ (open_capture stub_open_file_fails "b.rdc"
            opened_world).world.sess.capture_file_.isSome = true) :=
  reopen_effect stub_open_file_fails "b.rdc" opened_world 7 12 (by decide) (by decide) (by decide)

/-- C9 fails as stated: after a successful `open_capture`, a second successful
call replaces both handles, a call failing in OpenFile replaces the
capture-file handle under the old controller, and a call whose
`RENDERDOC_OpenCaptureFile` returns null clears the capture-file handle, after
which `ensure_opened` fails. -/
theorem reopen_replaces_or_clears_handles :
    (open_capture stub_engine "a.rdc" (replay_session_new stub_engine "" {}).world).result = .ok ()
    ∧ opened_world.sess = { lib_ := some 7, replay_initialised_ := true,
                            capture_file_ := some 11, controller_ := some 12 }
    ∧ ensure_opened opened_world.sess = .ok 12
    ∧ (open_capture stub_second_capture "b.rdc" opened_world).world.sess
        = { lib_ := some 7, replay_initialised_ := true,
            capture_file_ := some 21, controller_ := some 22 }
    ∧ (open_capture stub_open_file_fails "b.rdc" opened_world).world.sess
        = { lib_ := some 7, replay_initialised_ := true,
            capture_file_ := some 21, controller_ := some 12 }
    ∧ (open_capture stub_null_capture_file "b.rdc" opened_world).world.sess
        = { lib_ := some 7, replay_initialised_ := true,
            capture_file_ := none, controller_ := some 12 }
    ∧ ensure_opened (open_capture stub_null_capture_file "b.rdc" opened_world).world.sess
        = .error .capture_not_opened := by
  decide

/-- C10: on a session without a controller, when the library loads, the entry
points bind and `RENDERDOC_OpenCaptureFile` returns a handle, but OpenFile is
not OK, or OpenCapture is not OK or returns a null controller, `open_capture`
fails with the error of the failed stage; afterwards `replay_initialised_` is
true, the capture-file handle is the returned one and the controller is unset,
so `ensure_opened` still fails; and when OpenFile failed, OpenCapture was not
called. -/
theorem open_capture_two_phase_failure (e : Engine) (p : String) (w : World) (cf : Handle)
    (hc : w.sess.controller_ = none)
    (hload : (ensure_loaded e w).result = .ok ())
    (hinit : w.sess.replay_initialised_ = false →
      (e.dlsym (ensure_loaded e w).world.sess.lib_ "RENDERDOC_InitialiseReplay").isSome = true)
    (hbind : (e.dlsym (ensure_loaded e w).world.sess.lib_ "RENDERDOC_OpenCaptureFile").isSome = true)
    (hcf : e.OpenCaptureFile = some cf)
    (hfail : e.OpenFile_OK = false ∨ e.OpenCapture_OK = false ∨ e.OpenCapture_controller = none) :
    (open_capture e p w).result
        = .error (if e.OpenFile_OK = false then .open_file_failed else .open_capture_failed)
    ∧ (open_capture e p w).world.sess.replay_initialised_ = true
    ∧ (open_capture e p w).world.sess.capture_file_ = some cf
    ∧ (open_capture e p w).world.sess.controller_ = none
    ∧ ensure_opened (open_capture e p w).world.sess = .error .controller_not_available
    ∧ (e.OpenFile_OK = false → ∀ h, Call.OpenCapture h ∉ (open_capture e p w).trace) := by
  have hs := ensure_loaded_sess e w
  have htr := ensure_loaded_trace_dlopen e w
  have hnc : ∀ h, Call.OpenCapture h ∉ (ensure_loaded e w).trace := by
    intro h hmem
    have := htr _ hmem
    simp [Call.is_dlopen] at this
  have hinit' : (init_replay e (ensure_loaded e w).world).result = .ok ()
      ∧ (init_replay e (ensure_loaded e w).world).world.sess
          = { (ensure_loaded e w).world.sess with replay_initialised_ := true }
      ∧ ∀ h, Call.OpenCapture h ∉ (init_replay e (ensure_loaded e w).world).trace := by
    unfold init_replay load_symbol
    cases hflag : (ensure_loaded e w).world.sess.replay_initialised_ with
    | true =>
      simp only [if_true, List.not_mem_nil, not_false_eq_true, implies_true, and_true, true_and]
      rw [← hflag]
    | false =>
      have hb := hinit (by rw [← hs.1]; exact hflag)
      cases hd : e.dlsym (ensure_loaded e w).world.sess.lib_ "RENDERDOC_InitialiseReplay" with
      | none => rw [hd] at hb; simp at hb
      | some sym => simp
  obtain ⟨hi1, hi2, hi3⟩ := hinit'
  have hlib : (init_replay e (ensure_loaded e w).world).world.sess.lib_
      = (ensure_loaded e w).world.sess.lib_ := by rw [hi2]
  have hctl : (init_replay e (ensure_loaded e w).world).world.sess.controller_ = none := by
    rw [hi2]; simp only; rw [hs.2.2]; exact hc
  have hflag : (init_replay e (ensure_loaded e w).world).world.sess.replay_initialised_ = true := by
    rw [hi2]
  unfold open_capture
  simp only [hload, hi1]
  generalize (init_replay e (ensure_loaded e w).world).world = w2 at hlib hctl hflag ⊢
  generalize (init_replay e (ensure_loaded e w).world).trace = tr2 at hi3 ⊢
  generalize (ensure_loaded e w).trace = tr1 at hnc ⊢
  rw [← hlib] at hbind
  unfold open_capture_file load_symbol ensure_opened
  cases hd : e.dlsym w2.sess.lib_ "RENDERDOC_OpenCaptureFile" with
  | none => rw [hd] at hbind; simp at hbind
  | some sym =>
    simp only [hcf]
    cases hof : e.OpenFile_OK with
    | false =>
      simp only [Bool.false_eq_true, not_false_eq_true, if_true, hflag, hctl, true_and,
        not_true_eq_false, if_false]
      intro _ h hmem
      simp only [List.mem_append, List.mem_cons, List.mem_singleton, List.not_mem_nil, or_false,
        reduceCtorEq] at hmem
      rcases hmem with hmem | hmem
      · exact hnc h hmem
      · exact hi3 h hmem
    | true =>
      have hfail' : e.OpenCapture_OK = false ∨ e.OpenCapture_controller = none := by
        rcases hfail with h | h | h
        · rw [hof] at h; simp at h
        · left; exact h
        · right; exact h
      simp [hfail', hflag, hctl]

theorem json_escape_loop_append (s : Text) :
    ∀ out : Text, json_escape_loop s out = out ++ json_escape_loop s [] := by
  induction s with
  | nil => intro out; simp [json_escape_loop]
  | cons c cs ih =>
    intro out
    unfold json_escape_loop
    split
    · rw [ih (out ++ _), ih ([] ++ _)]; simp
    · split
      · rw [ih (out ++ _), ih ([] ++ _)]; simp
      · split
        · rw [ih (out ++ _), ih ([] ++ _)]; simp
        · split
          · rw [ih (out ++ _), ih ([] ++ _)]; simp
          · split
            · rw [ih (out ++ _), ih ([] ++ _)]; simp
            · rw [ih (out ++ _), ih ([] ++ _)]; simp

theorem json_escape_cons (c : Char) (cs : Text) :
    json_escape (c :: cs) =
      (if c = backslash then [backslash, backslash]
       else if c = dquote then [backslash, dquote]
       else if c = newline then [backslash, 'n']
       else if c = carriage_return then [backslash, 'r']
       else if c = tab then [backslash, 't']
       else [c]) ++ json_escape cs := by
  unfold json_escape
  rw [json_escape_loop]
  split
  · rw [json_escape_loop_append]; rfl
  · split
    · rw [json_escape_loop_append]; rfl
    · split
      · rw [json_escape_loop_append]; rfl
      · split
        · rw [json_escape_loop_append]; rfl
        · split
          · rw [json_escape_loop_append]; rfl
          · rw [json_escape_loop_append]; rfl

theorem json_decode_body_escape (s : Text) :
    json_decode_body false (json_escape s ++ [dquote]) = some s := by
  have b0 : backslash ≠ dquote := by decide
  induction s with
  | nil => simp [json_escape, json_escape_loop, json_decode_body]
  | cons c cs ih =>
    rw [json_escape_cons]
    by_cases h1 : c = backslash
    · subst h1
      simp [json_decode_body, ih, b0]
    · by_cases h2 : c = dquote
      · subst h2
        have : dquote ≠ backslash := by decide
        simp [json_decode_body, ih, b0, this]
      · by_cases h3 : c = newline
        · subst h3
          have a1 : newline ≠ backslash := by decide
          have a2 : newline ≠ dquote := by decide
          have a3 : 'n' ≠ backslash := by decide
          have a4 : 'n' ≠ dquote := by decide
          simp [json_decode_body, ih, b0, a1, a2, a3, a4]
        · by_cases h4 : c = carriage_return
          · subst h4
            have a1 : carriage_return ≠ backslash := by decide
            have a2 : carriage_return ≠ dquote := by decide
            have a3 : carriage_return ≠ newline := by decide
            have a4 : 'r' ≠ backslash := by decide
            have a5 : 'r' ≠ dquote := by decide
            have a6 : 'r' ≠ 'n' := by decide
            simp [json_decode_body, ih, b0, a1, a2, a3, a4, a5]
          · by_cases h5 : c = tab
            · subst h5
              have a1 : tab ≠ backslash := by decide
              have a2 : tab ≠ dquote := by decide
              have a3 : tab ≠ newline := by decide
              have a4 : tab ≠ carriage_return := by decide
              have a5 : 't' ≠ backslash := by decide
              have a6 : 't' ≠ dquote := by decide
              simp [json_decode_body, ih, b0, a1, a2, a3, a4, a5, a6]
            · simp [json_decode_body, ih, b0, h1, h2, h3, h4, h5]

/-- C5: decoding the string literal made of a double quote, `json_escape s` and
a double quote gives back exactly `s`, for every `s`; so `json_escape` is
injective. -/
theorem json_escape_roundtrip :
    (∀ s : Text, json_decode_string (dquote :: (json_escape s ++ [dquote])) = some s)
    ∧ Function.Injective json_escape := by
  have h : ∀ s : Text, json_decode_string (dquote :: (json_escape s ++ [dquote])) = some s := by
    intro s
    simp [json_decode_string, json_decode_body_escape]
  refine ⟨h, ?_⟩
  intro a b hab
  have ha := h a
  rw [hab, h b] at ha
  exact (Option.some.inj ha).symm

theorem intercalate_cons_cons {α : Type} (sep a b : List α) (l : List (List α)) :
    List.intercalate sep (a :: b :: l) = a ++ sep ++ List.intercalate sep (b :: l) := by
  simp [List.intercalate, List.intersperse]

theorem intercalate_snoc {α : Type} (sep x : List α) (l : List (List α)) (h : l ≠ []) :
    List.intercalate sep (l ++ [x]) = List.intercalate sep l ++ sep ++ x := by
  induction l with
  | nil => exact absurd rfl h
  | cons a rest ih =>
    cases rest with
    | nil => simp [List.intercalate, List.intersperse]
    | cons b rest' =>
      have := ih (by simp)
      rw [List.cons_append, List.cons_append, intercalate_cons_cons, ← List.cons_append, this,
        intercalate_cons_cons]
      simp [List.append_assoc]

theorem append_texture_eq (out : Text) (i : Nat) (name : Text) (t : TextureDescription) :
    append_texture out i name t
      = (if i > 0 then out ++ ",".data else out) ++ texture_object (i % 2 ^ 32) name t := by
  simp only [append_texture, texture_object, List.append_assoc]

theorem list_textures_loop_pos (m : NameMap) (ts : List TextureDescription) :
    ∀ (i : Nat) (objs : List Text), 0 < i → objs ≠ [] →
      list_textures_loop m ts i ("[".data ++ List.intercalate ",".data objs)
        = "[".data ++ List.intercalate ",".data (objs ++ texture_objects m i ts) := by
  induction ts with
  | nil => intro i objs _ _; simp [list_textures_loop, texture_objects]
  | cons t rest ih =>
    intro i objs hi hne
    rw [list_textures_loop, append_texture_eq, if_pos hi, List.append_assoc, List.append_assoc,
      ← List.append_assoc (List.intercalate _ _), ← intercalate_snoc _ _ _ hne,
      ih (i + 1) _ (Nat.succ_pos i) (by simp)]
    simp [texture_objects, List.append_assoc]

theorem list_textures_text_eq (resources : List ResourceDescription)
    (textures : List TextureDescription) :
    list_textures_text resources textures
      = "[".data ++ List.intercalate ",".data
          (texture_objects (build_name_by_id resources (fun _ => none)) 0 textures)
        ++ "]".data := by
  unfold list_textures_text
  cases textures with
  | nil => rfl
  | cons t rest =>
    rw [list_textures_loop, append_texture_eq, if_neg (Nat.lt_irrefl 0)]
    have h := list_textures_loop_pos (build_name_by_id resources (fun _ => none)) rest 1
      [texture_object (0 % 2 ^ 32) (texture_name (build_name_by_id resources (fun _ => none)) t) t]
      Nat.one_pos (by simp)
    have h1 : List.intercalate ",".data
        [texture_object (0 % 2 ^ 32) (texture_name (build_name_by_id resources (fun _ => none)) t) t]
        = texture_object (0 % 2 ^ 32) (texture_name (build_name_by_id resources (fun _ => none)) t) t := by
      simp [List.intercalate, List.intersperse]
    rw [h1] at h
    rw [h]
    simp [texture_objects]

theorem build_name_by_id_absent (rs : List ResourceDescription) (id : ResourceId) :
    ∀ m : NameMap, (∀ r ∈ rs, r.resourceId ≠ id) → build_name_by_id rs m id = m id := by
  induction rs with
  | nil => intro m _; rfl
  | cons r rest ih =>
    intro m h
    rw [build_name_by_id, ih _ (fun r' hr' => h r' (List.mem_cons_of_mem _ hr'))]
    have : id ≠ r.resourceId := fun heq => h r (List.mem_cons_self _ _) heq.symm
    simp [NameMap.assign, this]

theorem build_name_by_id_append (pre rs : List ResourceDescription) :
    ∀ m : NameMap, build_name_by_id (pre ++ rs) m = build_name_by_id rs (build_name_by_id pre m) := by
  induction pre with
  | nil => intro m; rfl
  | cons r rest ih =>
    intro m
    rw [List.cons_append, build_name_by_id, build_name_by_id, ih]

theorem build_name_by_id_last (pre post : List ResourceDescription) (r : ResourceDescription)
    (m : NameMap) (hpost : ∀ r' ∈ post, r'.resourceId ≠ r.resourceId) :
    build_name_by_id (pre ++ r :: post) m r.resourceId = some r.name := by
  rw [build_name_by_id_append, build_name_by_id, build_name_by_id_absent _ _ _ hpost]
  simp [NameMap.assign]

theorem texture_objects_length (m : NameMap) (i : Nat) (ts : List TextureDescription) :
    (texture_objects m i ts).length = ts.length := by
  simp [texture_objects]

theorem texture_objects_getElem? (m : NameMap) (ts : List TextureDescription) (j : Nat)
    (h : j < ts.length) :
    (texture_objects m 0 ts)[j]?
      = some (texture_object (j % 2 ^ 32) (texture_name m ts[j]) ts[j]) := by
  simp [texture_objects, List.getElem?_enumFrom, List.getElem?_eq_getElem h]

theorem texture_objects_snoc (m : NameMap) (i : Nat) (ts : List TextureDescription)
    (t : TextureDescription) :
    texture_objects m i (ts ++ [t])
      = texture_objects m i ts
        ++ [texture_object ((i + ts.length) % 2 ^ 32) (texture_name m t) t] := by
  simp [texture_objects, List.enumFrom_append]

theorem texture_objects_small (m : NameMap) (ts : List TextureDescription)
    (h : ts.length ≤ 2 ^ 32) :
    texture_objects m 0 ts
      = ts.enum.map (fun it => texture_object it.1 (texture_name m it.2) it.2) := by
  unfold texture_objects List.enum
  apply List.map_congr_left
  intro it hit
  have := List.fst_lt_of_mem_enum hit
  rw [Nat.mod_eq_of_lt (by omega)]

theorem list_textures_json_ok (e : Engine) (s : ReplaySession) (c : Handle)
    (hopen : ensure_opened s = .ok c) :
    list_textures_json e s
      = (.ok (list_textures_text e.GetResources e.GetTextures),
          [Call.GetResources c, Call.GetTextures c]) := by
  unfold list_textures_json
  rw [hopen]

theorem index_wraps_after (L : List TextureDescription) (hL : L.length = 2 ^ 32) :
    list_textures_text [] (L ++ [plain_texture])
      ≠ "[".data ++ List.intercalate ",".data
          ((L ++ [plain_texture]).enum.map
            (fun it => texture_object it.1 "<unknown>".data it.2)) ++ "]".data := by
  intro heq
  have hne : L ≠ [] := by
    intro h
    rw [h] at hL
    simp at hL
  have hm : ∀ t : TextureDescription,
      texture_name (build_name_by_id [] (fun _ => none)) t = "<unknown>".data := fun _ => rfl
  rw [list_textures_text_eq, texture_objects_snoc, texture_objects_small _ L (by omega),
    List.enum_append, List.map_append, Nat.zero_add, hL] at heq
  simp only [hm, List.enumFrom_singleton, List.map_cons, List.map_nil] at heq
  have hne' : (List.map (fun it : Nat × TextureDescription =>
      texture_object it.1 "<unknown>".data it.2) L.enum) ≠ [] := by
    simpa [List.enum] using hne
  rw [intercalate_snoc _ _ _ hne', intercalate_snoc _ _ _ hne'] at heq
  have h1 := List.append_cancel_right heq
  have h2 := List.append_cancel_left (List.append_cancel_left h1)
  revert h2
  decide

theorem json_run_append (a : Text) :
    ∀ (st : JsonState) (stk : List Bool) (b : Text),
      json_run st stk (a ++ b)
        = match json_run st stk a with
          | none => none
          | some next => json_run next.1 next.2 b := by
  induction a with
  | nil => intro st stk b; rfl
  | cons c cs ih =>
    intro st stk b
    simp only [List.cons_append, json_run]
    cases json_step st stk c with
    | none => rfl
    | some next => exact ih _ _ _

theorem toDigitsCore_eq (n : Nat) :
    ∀ (fuel : Nat) (ds : List Char), n < fuel →
      Nat.toDigitsCore 10 fuel n ds = Nat.toDigits 10 n ++ ds := by
  induction n using Nat.strong_induction_on with
  | _ n ih =>
    intro fuel ds hlt
    obtain ⟨f, rfl⟩ : ∃ f, fuel = f + 1 := ⟨fuel - 1, by omega⟩
    unfold Nat.toDigits
    simp only [Nat.toDigitsCore]
    by_cases h0 : n / 10 = 0
    · simp [h0]
    · have hlt' : n / 10 < n := Nat.div_lt_self (by omega) (by omega)
      simp only [h0, if_false]
      rw [ih (n / 10) hlt' f _ (by omega), ih (n / 10) hlt' n _ hlt']
      simp

theorem to_string_lt (n : Nat) (h : n < 10) : to_string n = [Nat.digitChar n] := by
  unfold to_string Nat.toDigits
  simp only [Nat.toDigitsCore]
  have h0 : n / 10 = 0 := Nat.div_eq_of_lt h
  simp [h0, Nat.mod_eq_of_lt h]

theorem to_string_ge (n : Nat) (h : 10 ≤ n) :
    to_string n = to_string (n / 10) ++ [Nat.digitChar (n % 10)] := by
  unfold to_string
  conv_lhs => unfold Nat.toDigits
  simp only [Nat.toDigitsCore]
  have h0 : n / 10 ≠ 0 := by
    intro h0
    have := Nat.div_add_mod n 10
    have := Nat.mod_lt n (show 10 > 0 by omega)
    omega
  have hlt' : n / 10 < n := Nat.div_lt_self (by omega) (by omega)
  simp only [h0, if_false]
  rw [toDigitsCore_eq (n / 10) n _ hlt']

theorem digitChar_digit (k : Nat) (h : k < 10) :
    json_digit (Nat.digitChar k) = true ∧ digit_value (Nat.digitChar k) = k
    ∧ (0 < k → Nat.digitChar k ≠ '0') := by
  interval_cases k <;> decide

theorem to_string_digits (n : Nat) :
    (to_string n).all json_digit = true ∧ to_string n ≠ []
    ∧ (0 < n → (to_string n).head? ≠ some '0')
    ∧ decimal_value (to_string n) = n := by
  induction n using Nat.strong_induction_on with
  | _ n ih =>
    by_cases h : n < 10
    · have hd := digitChar_digit n h
      rw [to_string_lt n h]
      refine ⟨by simp [hd.1], by simp, ?_, by simp [decimal_value, hd.2.1]⟩
      intro hpos
      simpa using hd.2.2 hpos
    · have hlt' : n / 10 < n := Nat.div_lt_self (by omega) (by omega)
      have hd := digitChar_digit (n % 10) (Nat.mod_lt n (by omega))
      obtain ⟨h1, h2, h3, h4⟩ := ih (n / 10) hlt'
      rw [to_string_ge n (by omega)]
      refine ⟨by simp [h1, hd.1], by simp, ?_, ?_⟩
      · intro _
        have hpos : 0 < n / 10 := by omega
        have := h3 hpos
        cases hts : to_string (n / 10) with
        | nil => exact absurd hts h2
        | cons c cs => rw [hts] at this; simpa using this
      · simp only [decimal_value, List.foldl_append, List.foldl_cons, List.foldl_nil]
        have : List.foldl (fun a c => 10 * a + digit_value c) 0 (to_string (n / 10)) = n / 10 := h4
        rw [this, hd.2.1]
        omega

theorem to_string_is_decimal (n : Nat) : is_decimal (to_string n) = true := by
  obtain ⟨h1, h2, h3, -⟩ := to_string_digits n
  cases hts : to_string n with
  | nil => exact absurd hts h2
  | cons c cs =>
    rw [hts] at h1 h3
    simp only [List.all_cons, Bool.and_eq_true] at h1
    cases cs with
    | nil => simpa [is_decimal] using h1.1
    | cons d ds =>
      have hn : 0 < n := by
        rcases Nat.eq_zero_or_pos n with h0 | h0
        · rw [h0] at hts
          have : to_string 0 = ['0'] := by decide
          rw [this] at hts
          simp at hts
        · exact h0
      have := h3 hn
      simp only [is_decimal, Bool.and_eq_true, bne_iff_ne, ne_eq]
      refine ⟨⟨h1.1, ?_⟩, h1.2⟩
      simpa using this

theorem run_seq {st st' : JsonState} {stk stk' : List Bool} {a : Text}
    (h : json_run st stk a = some (st', stk')) (b : Text) :
    json_run st stk (a ++ b) = json_run st' stk' b := by
  rw [json_run_append, h]

theorem digit_cases (c : Char) (h : json_digit c = true) :
    c ∈ ['0', '1', '2', '3', '4', '5', '6', '7', '8', '9'] := by
  simp only [json_digit, Bool.and_eq_true, decide_eq_true_eq] at h
  have hc : Char.ofNat c.toNat = c := Char.ofNat_toNat c
  obtain ⟨h1, h2⟩ := h
  generalize c.toNat = k at h1 h2 hc
  subst hc
  interval_cases k <;> decide

theorem run_int_digits (stk : List Bool) (ds : Text) (h : ds.all json_digit = true) :
    json_run .int stk ds = some (.int, stk) := by
  induction ds with
  | nil => rfl
  | cons c cs ih =>
    simp only [List.all_cons, Bool.and_eq_true] at h
    have hc := digit_cases c h.1
    have hstep : json_step .int stk c = some (.int, stk) := by
      simp only [List.mem_cons, List.mem_singleton, List.not_mem_nil, or_false] at hc
      rcases hc with rfl | rfl | rfl | rfl | rfl | rfl | rfl | rfl | rfl | rfl <;> rfl
    simp only [json_run, hstep]
    exact ih h.2

theorem run_decimal (S : JsonState) (hS : S = .value ∨ S = .array_start) (stk : List Bool)
    (s : Text) (h : is_decimal s = true) :
    ∃ st, (st = JsonState.zero ∨ st = JsonState.int) ∧ json_run S stk s = some (st, stk) := by
  cases s with
  | nil => simp [is_decimal] at h
  | cons c cs =>
    have hcd : json_digit c = true ∧ (cs ≠ [] → c ≠ '0') ∧ cs.all json_digit = true := by
      cases cs with
      | nil => simpa [is_decimal] using h
      | cons d ds =>
        simp only [is_decimal, Bool.and_eq_true, bne_iff_ne, ne_eq] at h
        exact ⟨h.1.1, fun _ => h.1.2, h.2⟩
    have hc := digit_cases c hcd.1
    simp only [List.mem_cons, List.mem_singleton, List.not_mem_nil, or_false] at hc
    by_cases h0 : c = '0'
    · subst h0
      have hnil : cs = [] := by
        by_contra hne
        exact hcd.2.1 hne rfl
      subst hnil
      refine ⟨.zero, Or.inl rfl, ?_⟩
      rcases hS with rfl | rfl <;> rfl
    · refine ⟨.int, Or.inr rfl, ?_⟩
      have hstep : json_step S stk c = some (.int, stk) := by
        rcases hS with rfl | rfl <;>
          rcases hc with rfl | rfl | rfl | rfl | rfl | rfl | rfl | rfl | rfl | rfl <;>
          first | exact absurd rfl h0 | rfl
      simp only [json_run, hstep]
      exact run_int_digits stk cs hcd.2.2

theorem run_escape (k : Bool) (stk : List Bool) (name : Text) :
    ∀ rest : Text,
      json_run (.string k) stk (json_escape name ++ rest)
        = if name.all json_plain = true then json_run (.string k) stk rest else none := by
  induction name with
  | nil => intro rest; simp [json_escape, json_escape_loop]
  | cons c cs ih =>
    intro rest
    rw [json_escape_cons, List.append_assoc]
    by_cases h1 : c = backslash
    · subst h1
      have hp : json_plain backslash = true := by decide
      simp only [if_true, List.all_cons, hp, Bool.true_and]
      rw [← ih rest]
      rfl
    · by_cases h2 : c = dquote
      · subst h2
        have hp : json_plain dquote = true := by decide
        have hn : dquote ≠ backslash := by decide
        simp only [hn, if_false, if_true, List.all_cons, hp, Bool.true_and]
        rw [← ih rest]
        rfl
      · by_cases h3 : c = newline
        · subst h3
          have hp : json_plain newline = true := by decide
          have hn1 : newline ≠ backslash := by decide
          have hn2 : newline ≠ dquote := by decide
          simp only [hn1, hn2, if_false, if_true, List.all_cons, hp, Bool.true_and]
          rw [← ih rest]
          rfl
        · by_cases h4 : c = carriage_return
          · subst h4
            have hp : json_plain carriage_return = true := by decide
            have hn1 : carriage_return ≠ backslash := by decide
            have hn2 : carriage_return ≠ dquote := by decide
            have hn3 : carriage_return ≠ newline := by decide
            simp only [hn1, hn2, hn3, if_false, if_true, List.all_cons, hp, Bool.true_and]
            rw [← ih rest]
            rfl
          · by_cases h5 : c = tab
            · subst h5
              have hp : json_plain tab = true := by decide
              have hn1 : tab ≠ backslash := by decide
              have hn2 : tab ≠ dquote := by decide
              have hn3 : tab ≠ newline := by decide
              have hn4 : tab ≠ carriage_return := by decide
              simp only [hn1, hn2, hn3, hn4, if_false, if_true, List.all_cons, hp, Bool.true_and]
              rw [← ih rest]
              rfl
            · simp only [h1, h2, h3, h4, h5, if_false, List.cons_append, List.nil_append,
                json_run, List.all_cons]
              have hpl : json_plain c = decide (32 ≤ c.toNat) := by
                simp [json_plain, h3, h4, h5]
              by_cases h32 : 32 ≤ c.toNat
              · have hstep : json_step (.string k) stk c = some (.string k, stk) := by
                  simp [json_step, h1, h2, Nat.not_lt.mpr h32]
                rw [hstep]
                simp only [hpl, h32, decide_True, Bool.true_and]
                exact ih rest
              · have hstep : json_step (.string k) stk c = none := by
                  simp [json_step, h1, h2, Nat.lt_of_not_le h32]
                rw [hstep]
                simp [hpl, h32]

theorem run_number_piece (st : JsonState) (hst : st = .zero ∨ st = .int) (stk : List Bool)
    (lit : Text) (res : Option (JsonState × List Bool))
    (h0 : json_run .zero stk lit = res) (h1 : json_run .int stk lit = res) :
    json_run st stk lit = res := by
  rcases hst with rfl | rfl
  · exact h0
  · exact h1

theorem run_texture_object (S : JsonState) (hS : S = .value ∨ S = .array_start)
    (stk : List Bool) (index : Nat) (name : Text) (t : TextureDescription) (rest : Text) :
    json_run S stk (texture_object index name t ++ rest)
      = if name.all json_plain = true then json_run .after_value stk rest else none := by
  unfold texture_object
  simp only [List.append_assoc]
  have hopen : json_run S stk "\x7b".data = some (.object_start, true :: stk) := by
    rcases hS with rfl | rfl <;> rfl
  rw [run_seq hopen,
    run_seq (show json_run .object_start (true :: stk) "\"index\":".data
      = some (.value, true :: stk) from rfl)]
  obtain ⟨s0, hs0, hr0⟩ := run_decimal .value (Or.inl rfl) (true :: stk) _ (to_string_is_decimal index)
  rw [run_seq hr0,
    run_seq (run_number_piece s0 hs0 (true :: stk) ",\"name\":\"".data
      (some (.string false, true :: stk)) rfl rfl),
    run_escape]
  by_cases hok : name.all json_plain = true
  · simp only [hok, if_true]
    rw [run_seq (show json_run (.string false) (true :: stk) "\"".data
      = some (.after_value, true :: stk) from rfl),
      run_seq (show json_run .after_value (true :: stk) ",\"width\":".data
        = some (.value, true :: stk) from rfl)]
    obtain ⟨s1, hs1, hr1⟩ := run_decimal .value (Or.inl rfl) (true :: stk) _ (to_string_is_decimal t.width)
    obtain ⟨s2, hs2, hr2⟩ := run_decimal .value (Or.inl rfl) (true :: stk) _ (to_string_is_decimal t.height)
    obtain ⟨s3, hs3, hr3⟩ := run_decimal .value (Or.inl rfl) (true :: stk) _ (to_string_is_decimal t.depth)
    obtain ⟨s4, hs4, hr4⟩ := run_decimal .value (Or.inl rfl) (true :: stk) _ (to_string_is_decimal t.mips)
    obtain ⟨s5, hs5, hr5⟩ := run_decimal .value (Or.inl rfl) (true :: stk) _ (to_string_is_decimal t.arraysize)
    obtain ⟨s6, hs6, hr6⟩ := run_decimal .value (Or.inl rfl) (true :: stk) _ (to_string_is_decimal t.msSamp)
    obtain ⟨s7, hs7, hr7⟩ := run_decimal .value (Or.inl rfl) (true :: stk) _ (to_string_is_decimal t.byteSize)
    rw [run_seq hr1,
      run_seq (run_number_piece s1 hs1 (true :: stk) ",\"height\":".data
        (some (.value, true :: stk)) rfl rfl),
      run_seq hr2,
      run_seq (run_number_piece s2 hs2 (true :: stk) ",\"depth\":".data
        (some (.value, true :: stk)) rfl rfl),
      run_seq hr3,
      run_seq (run_number_piece s3 hs3 (true :: stk) ",\"mips\":".data
        (some (.value, true :: stk)) rfl rfl),
      run_seq hr4,
      run_seq (run_number_piece s4 hs4 (true :: stk) ",\"arraysize\":".data
        (some (.value, true :: stk)) rfl rfl),
      run_seq hr5,
      run_seq (run_number_piece s5 hs5 (true :: stk) ",\"msSamp\":".data
        (some (.value, true :: stk)) rfl rfl),
      run_seq hr6,
      run_seq (run_number_piece s6 hs6 (true :: stk) ",\"byteSize\":".data
        (some (.value, true :: stk)) rfl rfl),
      run_seq hr7,
      run_seq (run_number_piece s7 hs7 (true :: stk) "\x7d".data
        (some (.after_value, stk)) rfl rfl)]
  · simp only [hok, if_false]
    rfl

theorem texture_objects_cons (m : NameMap) (i : Nat) (t : TextureDescription)
    (ts : List TextureDescription) :
    texture_objects m i (t :: ts)
      = texture_object (i % 2 ^ 32) (texture_name m t) t :: texture_objects m (i + 1) ts := by
  simp [texture_objects]

theorem run_texture_objects (m : NameMap) (ts : List TextureDescription) :
    ∀ (t : TextureDescription) (i : Nat) (S : JsonState), (S = .value ∨ S = .array_start) →
      json_run S [false]
          (List.intercalate ",".data (texture_objects m i (t :: ts)) ++ "]".data)
        = if (t :: ts).all (fun t => (texture_name m t).all json_plain) = true
          then some (.after_value, []) else none := by
  induction ts with
  | nil =>
    intro t i S hS
    have h1 : List.intercalate ",".data (texture_objects m i [t])
        = texture_object (i % 2 ^ 32) (texture_name m t) t := by
      simp [texture_objects, List.intercalate, List.intersperse]
    rw [h1, run_texture_object S hS]
    by_cases hok : (texture_name m t).all json_plain = true
    · simp only [hok, if_true, List.all_cons, List.all_nil, Bool.and_true]
      rfl
    · simp [hok]
  | cons t' rest ih =>
    intro t i S hS
    rw [texture_objects_cons, texture_objects_cons, intercalate_cons_cons,
      ← texture_objects_cons, List.append_assoc, List.append_assoc, run_texture_object S hS]
    by_cases hok : (texture_name m t).all json_plain = true
    · rw [if_pos hok,
        run_seq (show json_run .after_value [false] ",".data = some (.value, [false]) from rfl),
        ih t' (i + 1) .value (Or.inl rfl)]
      simp only [List.all_cons, hok, Bool.true_and]
    · simp [hok]

theorem list_textures_text_is_json (resources : List ResourceDescription)
    (textures : List TextureDescription) :
    is_json (list_textures_text resources textures)
      = textures.all (fun t =>
          (texture_name (build_name_by_id resources (fun _ => none)) t).all json_plain) := by
  rw [list_textures_text_eq]
  cases textures with
  | nil => rfl
  | cons t ts =>
    unfold is_json
    rw [List.append_assoc,
      run_seq (show json_run .value [] "[".data = some (.array_start, [false]) from rfl),
      run_texture_objects _ ts t 0 .array_start (Or.inr rfl)]
    by_cases hok : (t :: ts).all (fun t =>
        (texture_name (build_name_by_id resources (fun _ => none)) t).all json_plain) = true
    · rw [if_pos hok, hok]
      rfl
    · rw [if_neg hok]
      simp only [Bool.not_eq_true] at hok
      rw [hok]

/-- C6: the text of `list_textures_json` is accepted by the JSON grammar
exactly when every emitted name consists of characters from U+0020 on and of
line feed, carriage return and tab.  A resource name holding another control
character (here U+0001) is copied unescaped by `json_escape`, and the text is
then rejected by the grammar, which does not allow a raw character below
U+0020 inside a string; the same texture under the name `albedo` gives a text
the grammar accepts as an array. -/
theorem list_textures_json_control_char_invalid :
    (∀ (resources : List ResourceDescription) (textures : List TextureDescription),
      is_json (list_textures_text resources textures) = true ↔
        ∀ t ∈ textures,
          ∀ ch ∈ texture_name (build_name_by_id resources (fun _ => none)) t,
            json_plain ch = true)
    ∧ json_escape [Char.ofNat 1] = [Char.ofNat 1]
    ∧ (list_textures_json { stub_engine with
          GetResources := [⟨1, [Char.ofNat 1]⟩], GetTextures := [plain_texture] }
        opened_world.sess).1
        = .ok (list_textures_text [⟨1, [Char.ofNat 1]⟩] [plain_texture])
    ∧ is_json (list_textures_text [⟨1, [Char.ofNat 1]⟩] [plain_texture]) = false
    ∧ is_json_array (list_textures_text [⟨1, "albedo".data⟩] [plain_texture]) = true := by
  refine ⟨?_, by decide, by decide, by decide, by decide⟩
  intro resources textures
  rw [list_textures_text_is_json]
  simp only [List.all_eq_true]

/-- C10, at the stub engine whose OpenFile fails on a fresh session: the call
fails naming OpenFile, the capture-file handle 21 is kept, the controller
stays unset and OpenCapture is not called. -/
theorem open_capture_two_phase_failure_witness :
    (open_capture stub_open_file_fails "a.rdc" (replay_session_new stub_engine "" {}).world).result
        = .error .open_file_failed
    ∧ (open_capture stub_open_file_fails "a.rdc"
        (replay_session_new stub_engine "" {}).world).world.sess
        = { lib_ := some 7, replay_initialised_ := true, capture_file_ := some 21,
            controller_ := none }
    ∧ ∀ h, Call.OpenCapture h ∉ (open_capture stub_open_file_fails "a.rdc"
        (replay_session_new stub_engine "" {}).world).trace :=
  ⟨by decide, by decide,
   (open_capture_two_phase_failure stub_open_file_fails "a.rdc"
      (replay_session_new stub_engine "" {}).world 21 (by decide) (by decide)
      (fun _ => by decide) (by decide) (by decide) (Or.inl (by decide))).2.2.2.2.2 (by decide)⟩

theorem shutdown_controller_snd (s : ReplaySession) :
    (shutdown_controller s).2
      = (match s.controller_ with
          | some c => [Call.Controller_Shutdown c]
          | none => []) := by
  obtain ⟨l, r, cf, c⟩ := s
  cases c <;> rfl

theorem shutdown_capture_file_snd (s : ReplaySession) :
    (shutdown_capture_file s).2
      = (match s.capture_file_ with
          | some cf => [Call.CaptureFile_Shutdown cf]
          | none => []) := by
  obtain ⟨l, r, cf, c⟩ := s
  cases cf <;> rfl

theorem shutdown_replay_snd (e : Engine) (s : ReplaySession) :
    (shutdown_replay e s).2
      = (if s.replay_initialised_ = true then
          Call.dlsym s.lib_ "RENDERDOC_ShutdownReplay"
            :: (if (e.dlsym s.lib_ "RENDERDOC_ShutdownReplay").isSome = true
                then [Call.ShutdownReplay] else [])
         else []) := by
  obtain ⟨l, r, cf, c⟩ := s
  cases r
  · rfl
  · simp only [shutdown_replay, load_symbol, if_true]
    cases e.dlsym l "RENDERDOC_ShutdownReplay" with
    | none => rfl
    | some sym => cases e.ShutdownReplay_throws <;> rfl

theorem unload_library_snd (s : ReplaySession) :
    (unload_library s).2
      = (match s.lib_ with
          | some lib => [Call.dlclose lib]
          | none => []) := by
  obtain ⟨l, r, cf, c⟩ := s
  cases l <;> rfl

theorem teardown_trace_eq (e : Engine) (w : World) :
    (teardown e w).trace
      = (match w.sess.controller_ with
          | some c => [Call.Controller_Shutdown c]
          | none => [])
        ++ (match w.sess.capture_file_ with
            | some cf => [Call.CaptureFile_Shutdown cf]
            | none => [])
        ++ (if w.sess.replay_initialised_ = true then
              Call.dlsym w.sess.lib_ "RENDERDOC_ShutdownReplay"
                :: (if (e.dlsym w.sess.lib_ "RENDERDOC_ShutdownReplay").isSome = true
                    then [Call.ShutdownReplay] else [])
            else [])
        ++ (match w.sess.lib_ with
            | some lib => [Call.dlclose lib]
            | none => []) := by
  simp only [teardown, shutdown_controller_snd, shutdown_capture_file_snd, shutdown_replay_snd,
    unload_library_snd, shutdown_controller_fst, shutdown_capture_file_fst, shutdown_replay_fst]

/-- C11: for every session state and engine behaviour the destructor's calls
are, in this order, the controller's `Shutdown` if `controller_` was set, the
capture file's `Shutdown` if `capture_file_` was set, the replay-shutdown step
if `replay_initialised_` was set (the lookup of `RENDERDOC_ShutdownReplay` on
the library, followed by its invocation when the symbol binds), and `dlclose`
of the library if `lib_` was set, each on the value the field had on entry and
nothing else; for a session holding only a library the calls are exactly one
`dlclose`. -/
theorem teardown_trace (e : Engine) (w : World) :
    (teardown e w).trace
      = (match w.sess.controller_ with
          | some c => [Call.Controller_Shutdown c]
          | none => [])
        ++ (match w.sess.capture_file_ with
            | some cf => [Call.CaptureFile_Shutdown cf]
            | none => [])
        ++ (if w.sess.replay_initialised_ = true then
              Call.dlsym w.sess.lib_ "RENDERDOC_ShutdownReplay"
                :: (if (e.dlsym w.sess.lib_ "RENDERDOC_ShutdownReplay").isSome = true
                    then [Call.ShutdownReplay] else [])
            else [])
        ++ (match w.sess.lib_ with
            | some lib => [Call.dlclose lib]
            | none => [])
    ∧ ∀ (lib : Handle) (g : Globals),
        (teardown e { sess := { lib_ := some lib }, glob := g }).trace = [Call.dlclose lib] := by
  constructor
  · exact teardown_trace_eq e w
  · intro lib g
    rfl

/-- C12: the destructor completes for every session state and every engine
behaviour, also when `RENDERDOC_ShutdownReplay` does not bind or throws; the
library, when one was held, is closed all the same; afterwards `controller_`,
`capture_file_` and `lib_` are null and `replay_initialised_` is false; and
running the destructor's steps again on that state makes no call and changes
nothing.  On the opened stub session: with the symbol missing the calls are
the two shutdowns, the failed lookup and `dlclose`; with a throwing entry point
the invocation is followed by `dlclose` as well. -/
theorem teardown_total_idempotent (e e' : Engine) (w : World) :
    (teardown e w).result = .ok ()
    ∧ (match w.sess.lib_ with
        | some lib => Call.dlclose lib ∈ (teardown e w).trace
        | none => True)
    ∧ (teardown e w).world.sess
        = { lib_ := none, replay_initialised_ := false, capture_file_ := none,
            controller_ := none }
    ∧ (teardown e' (teardown e w).world).result = .ok ()
    ∧ (teardown e' (teardown e w).world).trace = []
    ∧ (teardown e' (teardown e w).world).world = (teardown e w).world
    ∧ (teardown stub_no_shutdown_symbol opened_world).trace
        = [Call.Controller_Shutdown 12, Call.CaptureFile_Shutdown 11,
           Call.dlsym (some 7) "RENDERDOC_ShutdownReplay", Call.dlclose 7]
    ∧ (teardown stub_shutdown_throws opened_world).trace
        = [Call.Controller_Shutdown 12, Call.CaptureFile_Shutdown 11,
           Call.dlsym (some 7) "RENDERDOC_ShutdownReplay", Call.ShutdownReplay,
           Call.dlclose 7] := by
  have hs := teardown_sess e w
  have ht := teardown_trace_eq e w
  refine ⟨rfl, ?_, hs, rfl, ?_, ?_, by decide, by decide⟩
  · cases hl : w.sess.lib_ with
    | none => trivial
    | some lib =>
      rw [ht, hl]
      simp
  · rw [teardown_trace_eq e' _, hs]
    rfl
  · have h2 := teardown_sess e' (teardown e w).world
    have hg : (teardown e' (teardown e w).world).world.glob = (teardown e w).world.glob := rfl
    cases hw : (teardown e' (teardown e w).world).world with
    | mk s2 g2 =>
      cases hw1 : (teardown e w).world with
      | mk s1 g1 =>
        rw [hw] at h2 hg
        rw [hw1] at hs hg
        simp only at h2 hg hs
        rw [h2, hg, hs]

theorem first_loadable_append (d : String → Option Handle) (a b : List String) :
    first_loadable d (a ++ b)
      = (match (first_loadable d a).1 with
          | some h => (some h, (first_loadable d a).2)
          | none => ((first_loadable d b).1, (first_loadable d a).2 ++ (first_loadable d b).2)) := by
  induction a with
  | nil => simp [first_loadable]
  | cons p ps ih =>
    simp only [List.cons_append, first_loadable]
    cases hp : d p with
    | some h => simp
    | none =>
      simp only
      have ih' : first_loadable d (ps.append b) = _ := ih
      rw [ih']
      cases (first_loadable d ps).1 <;> simp

theorem first_loadable_none (d : String → Option Handle) (cs : List String) :
    (first_loadable d cs).1 = none ↔ ∀ p ∈ cs, d p = none := by
  induction cs with
  | nil => simp [first_loadable]
  | cons p ps ih =>
    simp only [first_loadable, List.mem_cons, forall_eq_or_imp]
    cases hp : d p with
    | some h => simp
    | none => simpa using ih

theorem first_loadable_find (d : String → Option Handle) (cs : List String) :
    (first_loadable d cs).1 = (cs.find? (fun p => (d p).isSome)).bind d
    ∧ (first_loadable d cs).2
        = cs.takeWhile (fun p => (d p).isNone)
          ++ (cs.find? (fun p => (d p).isSome)).toList := by
  induction cs with
  | nil => simp [first_loadable]
  | cons p ps ih =>
    simp only [first_loadable]
    cases hp : d p with
    | some h => simp [List.find?, List.takeWhile, hp]
    | none => simp [List.find?, List.takeWhile, hp, ih.1, ih.2]

theorem dlopen_first_eq (e : Engine) (base : String) (names : List String) :
    dlopen_first e base names
      = ((first_loadable e.dlopen (names.map (fun n => base ++ n))).1,
         (first_loadable e.dlopen (names.map (fun n => base ++ n))).2.map Call.dlopen) := by
  induction names with
  | nil => rfl
  | cons n rest ih =>
    simp only [dlopen_first, List.map_cons, first_loadable]
    cases hp : e.dlopen (base ++ n) with
    | some h => simp
    | none => simp [ih]

theorem dlopen_env_so_eq (e : Engine) :
    dlopen_env_so e
      = ((first_loadable e.dlopen
            (match e.getenv "RENDERDOG_REPLAY_RENDERDOC_SO" with
              | some so => [so]
              | none => [])).1,
         (first_loadable e.dlopen
            (match e.getenv "RENDERDOG_REPLAY_RENDERDOC_SO" with
              | some so => [so]
              | none => [])).2.map Call.dlopen) := by
  unfold dlopen_env_so
  cases e.getenv "RENDERDOG_REPLAY_RENDERDOC_SO" with
  | none => rfl
  | some so =>
    simp only [first_loadable]
    cases e.dlopen so <;> rfl

theorem dlopen_env_dir_eq (e : Engine) :
    dlopen_env_dir e
      = ((first_loadable e.dlopen
            (match e.getenv "RENDERDOG_RENDERDOC_DIR" with
              | some dir => [dir_base dir ++ "librenderdoc.so.1", dir_base dir ++ "librenderdoc.so"]
              | none => [])).1,
         (first_loadable e.dlopen
            (match e.getenv "RENDERDOG_RENDERDOC_DIR" with
              | some dir => [dir_base dir ++ "librenderdoc.so.1", dir_base dir ++ "librenderdoc.so"]
              | none => [])).2.map Call.dlopen) := by
  unfold dlopen_env_dir
  cases e.getenv "RENDERDOG_RENDERDOC_DIR" with
  | none => rfl
  | some dir => exact dlopen_first_eq e (dir_base dir) _

theorem dlopen_bare_eq (e : Engine) (names : List String) :
    dlopen_first e "" names
      = ((first_loadable e.dlopen names).1, (first_loadable e.dlopen names).2.map Call.dlopen) := by
  have h : names.map (fun n => "" ++ n) = names := by
    conv_rhs => rw [← List.map_id names]
    apply List.map_congr_left
    intro n _
    exact String.empty_append n
  rw [dlopen_first_eq, h]





theorem ensure_loaded_eq (e : Engine) (w : World) (hl : w.sess.lib_ = none) :
    ensure_loaded e w
      = (match (first_loadable e.dlopen (ensure_loaded_candidates e)).1 with
          | some h =>
            { result := .ok (), world := store_lib h w,
              trace := (first_loadable e.dlopen (ensure_loaded_candidates e)).2.map Call.dlopen }
          | none =>
            { result := .error .library_load_failed, world := w,
              trace := (first_loadable e.dlopen (ensure_loaded_candidates e)).2.map Call.dlopen }) := by
  unfold ensure_loaded ensure_loaded_candidates env_candidates
  rw [dlopen_env_so_eq, dlopen_env_dir_eq, dlopen_bare_eq, first_loadable_append,
    first_loadable_append]
  simp only [hl, Option.isSome_none, Bool.false_eq_true, if_false]
  generalize first_loadable e.dlopen
    (match e.getenv "RENDERDOG_REPLAY_RENDERDOC_SO" with
      | some so => [so]
      | none => []) = r1
  generalize first_loadable e.dlopen
    (match e.getenv "RENDERDOG_RENDERDOC_DIR" with
      | some dir => [dir_base dir ++ "librenderdoc.so.1", dir_base dir ++ "librenderdoc.so"]
      | none => []) = r2
  generalize first_loadable e.dlopen ["librenderdoc.so", "librenderdoc.so.1"] = r3
  obtain ⟨a1, t1⟩ := r1
  obtain ⟨a2, t2⟩ := r2
  obtain ⟨a3, t3⟩ := r3
  cases a1 <;> cases a2 <;> cases a3 <;> simp

theorem get_renderdoc_module_eq (e : Engine) (g : Globals) (hg : g.g_renderdoc_module = none) :
    get_renderdoc_module e g
      = (match (first_loadable e.dlopen (get_renderdoc_module_candidates e)).1 with
          | some h =>
            (some h, { g with g_renderdoc_module := some h },
              (first_loadable e.dlopen (get_renderdoc_module_candidates e)).2.map Call.dlopen)
          | none =>
            (none, g,
              (first_loadable e.dlopen (get_renderdoc_module_candidates e)).2.map Call.dlopen)) := by
  unfold get_renderdoc_module get_renderdoc_module_candidates env_candidates
  rw [dlopen_env_so_eq, dlopen_env_dir_eq, dlopen_bare_eq, first_loadable_append,
    first_loadable_append]
  simp only [hg]
  generalize first_loadable e.dlopen
    (match e.getenv "RENDERDOG_REPLAY_RENDERDOC_SO" with
      | some so => [so]
      | none => []) = r1
  generalize first_loadable e.dlopen
    (match e.getenv "RENDERDOG_RENDERDOC_DIR" with
      | some dir => [dir_base dir ++ "librenderdoc.so.1", dir_base dir ++ "librenderdoc.so"]
      | none => []) = r2
  generalize first_loadable e.dlopen ["librenderdoc.so.1", "librenderdoc.so"] = r3
  obtain ⟨a1, t1⟩ := r1
  obtain ⟨a2, t2⟩ := r2
  obtain ⟨a3, t3⟩ := r3
  cases a1 <;> cases a2 <;> cases a3 <;> simp





/-- C13: `ensure_loaded` on a session that holds a library makes no call and
changes nothing.  On a session without one it calls `dlopen` on the candidates
in order (the file named by `RENDERDOG_REPLAY_RENDERDOC_SO` if set, the
directory named by `RENDERDOG_RENDERDOC_DIR` if set joined with
`librenderdoc.so.1` and with `librenderdoc.so`, then the bare names
`librenderdoc.so` and `librenderdoc.so.1`) up to and including the first one
that loads; it stores that handle in `lib_` and in `g_renderdoc_module`; and it
fails, with the library-load error and the state unchanged, exactly when no
candidate loads. -/
theorem ensure_loaded_discovery (e : Engine) (w : World) :
    (w.sess.lib_.isSome = true →
      (ensure_loaded e w).result = .ok () ∧ (ensure_loaded e w).world = w
      ∧ (ensure_loaded e w).trace = [])
    ∧ (w.sess.lib_ = none →
        (ensure_loaded e w).trace
          = ((ensure_loaded_candidates e).takeWhile (fun p => (e.dlopen p).isNone)
              ++ ((ensure_loaded_candidates e).find? (fun p => (e.dlopen p).isSome)).toList).map
              Call.dlopen
        ∧ (∀ p, (ensure_loaded_candidates e).find? (fun p => (e.dlopen p).isSome) = some p →
            (ensure_loaded e w).result = .ok ()
            ∧ (ensure_loaded e w).world.sess = { w.sess with lib_ := e.dlopen p }
            ∧ (ensure_loaded e w).world.glob = { w.glob with g_renderdoc_module := e.dlopen p })
        ∧ ((ensure_loaded e w).result = .error .library_load_failed
            ↔ ∀ p ∈ ensure_loaded_candidates e, e.dlopen p = none)
        ∧ ((ensure_loaded e w).result = .error .library_load_failed →
            (ensure_loaded e w).world = w)
        ∧ ((ensure_loaded e w).result = .ok ()
            ∨ (ensure_loaded e w).result = .error .library_load_failed)) := by
  refine ⟨fun h => by rw [ensure_loaded_of_lib e w h]; exact ⟨rfl, rfl, rfl⟩, fun hl => ?_⟩
  have heq := ensure_loaded_eq e w hl
  have hf := first_loadable_find e.dlopen (ensure_loaded_candidates e)
  have hn := first_loadable_none e.dlopen (ensure_loaded_candidates e)
  cases h1 : (first_loadable e.dlopen (ensure_loaded_candidates e)).1 with
  | none =>
    rw [h1] at heq hn
    simp only at heq
    rw [heq]
    have hall := hn.mp rfl
    refine ⟨by rw [hf.2], ?_, by simpa using hall, fun _ => rfl, Or.inr rfl⟩
    intro p hp
    have hmem := List.mem_of_find?_eq_some hp
    have hsome := List.find?_some hp
    rw [hall p hmem] at hsome
    simp at hsome
  | some h =>
    rw [h1] at heq hn
    simp only at heq
    rw [heq]
    refine ⟨by rw [hf.2], ?_, ?_, by simp, Or.inl rfl⟩
    · intro p hp
      have h2 := hf.1
      rw [h1, hp] at h2
      simp only [Option.some_bind] at h2
      simp only [store_lib, ← h2, and_self]
    · simp only [reduceCtorEq, false_iff]
      intro hall
      have := hn.mpr hall
      simp at this

/-- C13, at a stub with both environment variables set and only
`/opt/rd/librenderdoc.so` loadable: three candidates are tried in order and
the handle is stored in both places. -/
theorem ensure_loaded_discovery_witness :
    (ensure_loaded stub_env_dir { sess := {}, glob := {} }).trace
        = [Call.dlopen "/opt/rd/custom.so", Call.dlopen "/opt/rd/librenderdoc.so.1",
           Call.dlopen "/opt/rd/librenderdoc.so"]
    ∧ (ensure_loaded stub_env_dir { sess := {}, glob := {} }).world
        = { sess := { lib_ := some 9 }, glob := { g_renderdoc_module := some 9 } }
    ∧ ((ensure_loaded stub_no_library { sess := {}, glob := {} }).result
          = .error .library_load_failed
        ↔ ∀ p ∈ ensure_loaded_candidates stub_no_library, stub_no_library.dlopen p = none) :=
  ⟨by decide, by decide,
   ((ensure_loaded_discovery stub_no_library { sess := {}, glob := {} }).2 rfl).2.2.1⟩

/-- C17: with an empty cache and a session without a library the two
discoveries fail in exactly the same cases, and they make the same calls and
obtain the same handle whenever a candidate of the environment stages loads;
but they try the bare names in opposite orders, so on the stub where both bare
names load `get_renderdoc_module` loads `librenderdoc.so.1` and
`ensure_loaded` loads `librenderdoc.so`. -/
theorem discovery_bare_order_differs :
    (∀ (e : Engine) (w : World) (g : Globals),
      w.sess.lib_ = none → g.g_renderdoc_module = none →
        ((get_renderdoc_module e g).1 = none
          ↔ (ensure_loaded e w).result = .error .library_load_failed))
    ∧ (∀ (e : Engine) (w : World) (g : Globals),
        w.sess.lib_ = none → g.g_renderdoc_module = none →
        (∃ p ∈ env_candidates e, (e.dlopen p).isSome = true) →
          (get_renderdoc_module e g).2.2 = (ensure_loaded e w).trace
          ∧ (get_renderdoc_module e g).1 = (ensure_loaded e w).world.sess.lib_)
    ∧ get_renderdoc_module stub_both_names {}
        = (some 8, { g_renderdoc_module := some 8 }, [Call.dlopen "librenderdoc.so.1"])
    ∧ (ensure_loaded stub_both_names { sess := {}, glob := {} }).trace
        = [Call.dlopen "librenderdoc.so"]
    ∧ (ensure_loaded stub_both_names { sess := {}, glob := {} }).world
        = { sess := { lib_ := some 7 }, glob := { g_renderdoc_module := some 7 } } := by
  refine ⟨?_, ?_, by decide, by decide, by decide⟩
  · intro e w g hl hg
    rw [ensure_loaded_eq e w hl, get_renderdoc_module_eq e g hg]
    have h1 := first_loadable_none e.dlopen (ensure_loaded_candidates e)
    have h2 := first_loadable_none e.dlopen (get_renderdoc_module_candidates e)
    have hperm : (∀ p ∈ ensure_loaded_candidates e, e.dlopen p = none)
        ↔ (∀ p ∈ get_renderdoc_module_candidates e, e.dlopen p = none) := by
      simp only [ensure_loaded_candidates, get_renderdoc_module_candidates, List.mem_append,
        List.mem_cons, List.mem_singleton, List.not_mem_nil, or_false]
      constructor <;> intro h p hp <;> apply h <;> tauto
    cases ha : (first_loadable e.dlopen (ensure_loaded_candidates e)).1 <;>
      cases hb : (first_loadable e.dlopen (get_renderdoc_module_candidates e)).1
    · simp
    · exact absurd (h2.mpr (hperm.mp (h1.mp ha))) (by rw [hb]; simp)
    · exact absurd (h1.mpr (hperm.mpr (h2.mp hb))) (by rw [ha]; simp)
    · simp
  · intro e w g hl hg ⟨p, hp, hload⟩
    rw [ensure_loaded_eq e w hl, get_renderdoc_module_eq e g hg]
    have henv : (first_loadable e.dlopen (env_candidates e)).1 ≠ none := by
      intro hnone
      have := (first_loadable_none e.dlopen (env_candidates e)).mp hnone p hp
      rw [this] at hload
      simp at hload
    unfold ensure_loaded_candidates get_renderdoc_module_candidates
    rw [first_loadable_append, first_loadable_append]
    cases hA : (first_loadable e.dlopen (env_candidates e)).1 with
    | none => exact absurd hA henv
    | some h => simp [store_lib]

theorem get_renderdoc_module_globals (e : Engine) (g : Globals) :
    (∀ m, (get_renderdoc_module e g).1 = some m →
      (get_renderdoc_module e g).2.1 = { g with g_renderdoc_module := some m })
    ∧ ((get_renderdoc_module e g).1 = none → (get_renderdoc_module e g).2.1 = g) := by
  cases hg : g.g_renderdoc_module with
  | some m0 =>
    have : get_renderdoc_module e g = (some m0, g, []) := by
      unfold get_renderdoc_module
      rw [hg]
    rw [this]
    refine ⟨fun m hm => ?_, fun h => by simp at h⟩
    simp only [Option.some.injEq] at hm
    subst hm
    obtain ⟨a, b, c⟩ := g
    simp only at hg
    subst hg
    rfl
  | none =>
    rw [get_renderdoc_module_eq e g hg]
    cases (first_loadable e.dlopen (get_renderdoc_module_candidates e)).1 with
    | none => simp
    | some h => simp

/-- C14 (amended): the two exported callbacks always return.  When both engine
allocator functions are already cached they forward to the cached functions
without any lookup.  Otherwise: if `get_renderdoc_module` yields no module,
`RENDERDOC_AllocArrayMem` returns null, `RENDERDOC_FreeArrayMem` does nothing
and the process-wide state is unchanged; if it yields a module but one of the
two symbols does not resolve, they return null / do nothing and cache no
allocator function, the module handle staying cached; and if both symbols
resolve they are cached and the size / pointer is forwarded unchanged to them,
`RENDERDOC_AllocArrayMem` returning the engine's result. -/
theorem allocator_callbacks (e : Engine) (g : Globals) (sz : Nat) (mem : Option Handle) :
    (∀ a f, g.g_alloc_array_mem = some a → g.g_free_array_mem = some f →
      RENDERDOC_AllocArrayMem e sz g = (e.alloc_result, g, [Call.engine_alloc a sz])
      ∧ RENDERDOC_FreeArrayMem e mem g = (g, [Call.engine_free f mem]))
    ∧ (¬ (g.g_alloc_array_mem.isSome = true ∧ g.g_free_array_mem.isSome = true) →
        ((get_renderdoc_module e g).1 = none →
          RENDERDOC_AllocArrayMem e sz g = (none, g, (get_renderdoc_module e g).2.2)
          ∧ RENDERDOC_FreeArrayMem e mem g = (g, (get_renderdoc_module e g).2.2))
        ∧ (∀ m, (get_renderdoc_module e g).1 = some m →
            (e.dlsym (some m) "RENDERDOC_AllocArrayMem" = none
              ∨ e.dlsym (some m) "RENDERDOC_FreeArrayMem" = none) →
            RENDERDOC_AllocArrayMem e sz g
              = (none, { g with g_renderdoc_module := some m },
                  (get_renderdoc_module e g).2.2
                    ++ [Call.dlsym (some m) "RENDERDOC_AllocArrayMem",
                        Call.dlsym (some m) "RENDERDOC_FreeArrayMem"])
            ∧ RENDERDOC_FreeArrayMem e mem g
              = ({ g with g_renderdoc_module := some m },
                  (get_renderdoc_module e g).2.2
                    ++ [Call.dlsym (some m) "RENDERDOC_AllocArrayMem",
                        Call.dlsym (some m) "RENDERDOC_FreeArrayMem"]))
        ∧ (∀ m a f, (get_renderdoc_module e g).1 = some m →
            e.dlsym (some m) "RENDERDOC_AllocArrayMem" = some a →
            e.dlsym (some m) "RENDERDOC_FreeArrayMem" = some f →
            RENDERDOC_AllocArrayMem e sz g
              = (e.alloc_result,
                  { g_renderdoc_module := some m, g_alloc_array_mem := some a,
                    g_free_array_mem := some f },
                  (get_renderdoc_module e g).2.2
                    ++ [Call.dlsym (some m) "RENDERDOC_AllocArrayMem",
                        Call.dlsym (some m) "RENDERDOC_FreeArrayMem",
                        Call.engine_alloc a sz])
            ∧ RENDERDOC_FreeArrayMem e mem g
              = ({ g_renderdoc_module := some m, g_alloc_array_mem := some a,
                   g_free_array_mem := some f },
                  (get_renderdoc_module e g).2.2
                    ++ [Call.dlsym (some m) "RENDERDOC_AllocArrayMem",
                        Call.dlsym (some m) "RENDERDOC_FreeArrayMem",
                        Call.engine_free f mem]))) := by
  have hgl := get_renderdoc_module_globals e g
  refine ⟨?_, fun hnot => ⟨?_, ?_, ?_⟩⟩
  · intro a f ha hf
    have hens : ensure_array_allocators e g = (.ok (), g, []) := by
      unfold ensure_array_allocators
      rw [if_pos (by simp [ha, hf])]
    unfold RENDERDOC_AllocArrayMem RENDERDOC_FreeArrayMem
    simp only [hens, ha, hf, List.nil_append, and_self]
  · intro hm
    have hens : ensure_array_allocators e g
        = (.error .module_not_loaded, g, (get_renderdoc_module e g).2.2) := by
      unfold ensure_array_allocators
      rw [if_neg hnot]
      simp only [hm, hgl.2 hm]
    unfold RENDERDOC_AllocArrayMem RENDERDOC_FreeArrayMem
    simp only [hens, and_self]
  · intro m hm hsym
    have hens : ensure_array_allocators e g
        = (.error .allocators_unresolved, { g with g_renderdoc_module := some m },
            (get_renderdoc_module e g).2.2
              ++ [Call.dlsym (some m) "RENDERDOC_AllocArrayMem",
                  Call.dlsym (some m) "RENDERDOC_FreeArrayMem"]) := by
      unfold ensure_array_allocators
      rw [if_neg hnot]
      simp only [hm, hgl.1 m hm]
      rcases hsym with h | h
      · rw [h]
      · rw [h]
        cases e.dlsym (some m) "RENDERDOC_AllocArrayMem" <;> rfl
    unfold RENDERDOC_AllocArrayMem RENDERDOC_FreeArrayMem
    simp only [hens, and_self]
  · intro m a f hm ha hf
    have hens : ensure_array_allocators e g
        = (.ok (), { g_renderdoc_module := some m, g_alloc_array_mem := some a,
                     g_free_array_mem := some f },
            (get_renderdoc_module e g).2.2
              ++ [Call.dlsym (some m) "RENDERDOC_AllocArrayMem",
                  Call.dlsym (some m) "RENDERDOC_FreeArrayMem"]) := by
      unfold ensure_array_allocators
      rw [if_neg hnot]
      simp only [hm, hgl.1 m hm, ha, hf]
    unfold RENDERDOC_AllocArrayMem RENDERDOC_FreeArrayMem
    simp only [hens, List.append_assoc, List.cons_append, List.nil_append, and_self]





/-- C14, at the stub with the module cached and both symbols resolving: the
functions 701 and 702 are cached and the size 16 is forwarded to 701, whose
result 500 is returned. -/
theorem allocator_callbacks_witness :
    RENDERDOC_AllocArrayMem stub_allocators 16 { g_renderdoc_module := some 7 }
        = (some 500,
            { g_renderdoc_module := some 7, g_alloc_array_mem := some 701,
              g_free_array_mem := some 702 },
            (get_renderdoc_module stub_allocators { g_renderdoc_module := some 7 }).2.2
              ++ [Call.dlsym (some 7) "RENDERDOC_AllocArrayMem",
                  Call.dlsym (some 7) "RENDERDOC_FreeArrayMem",
                  Call.engine_alloc 701 16])
    ∧ RENDERDOC_FreeArrayMem stub_allocators (some 500) { g_renderdoc_module := some 7 }
        = ({ g_renderdoc_module := some 7, g_alloc_array_mem := some 701,
             g_free_array_mem := some 702 },
            (get_renderdoc_module stub_allocators { g_renderdoc_module := some 7 }).2.2
              ++ [Call.dlsym (some 7) "RENDERDOC_AllocArrayMem",
                  Call.dlsym (some 7) "RENDERDOC_FreeArrayMem",
                  Call.engine_free 702 (some 500)]) :=
  ((allocator_callbacks stub_allocators { g_renderdoc_module := some 7 } 16 (some 500)).2
    (by decide)).2.2 7 701 702 (by decide) (by decide) (by decide)

/-- C14 fails as stated in two places.  With nothing cached, a module that
loads and an allocator symbol that does not resolve, the call returns null but
leaves the module handle cached.  With both allocator functions cached and an
engine on which no module loads and no symbol resolves, the call does not
return null: it calls the cached function and returns its result. -/
theorem allocator_callbacks_not_as_stated :
    RENDERDOC_AllocArrayMem stub_no_alloc_symbol 16 {}
        = (none, { g_renderdoc_module := some 7 },
            [Call.dlopen "librenderdoc.so.1", Call.dlopen "librenderdoc.so",
             Call.dlsym (some 7) "RENDERDOC_AllocArrayMem",
             Call.dlsym (some 7) "RENDERDOC_FreeArrayMem"])
    ∧ (get_renderdoc_module stub_nothing_resolves {}).1 = none
    ∧ RENDERDOC_AllocArrayMem stub_nothing_resolves 16
          { g_alloc_array_mem := some 701, g_free_array_mem := some 702 }
        = (some 500, { g_alloc_array_mem := some 701, g_free_array_mem := some 702 },
            [Call.engine_alloc 701 16]) := by
  decide

/-- C15: on an opened session `save_texture_png` checks the index as
`pick_pixel` does: an index at or beyond the number of textures the controller
returns fails with the index-out-of-range error after `GetTextures` only; an
index below it issues exactly one `SaveTexture`, for the resource id of the
indexed texture, file type PNG and mip 0, and the call fails, with the export
error, exactly when the engine's result is not OK. -/
theorem save_texture_png_check (e : Engine) (s : ReplaySession) (c : Handle)
    (texture_index : Nat) (output_path : String) (hopen : ensure_opened s = .ok c) :
    (e.GetTextures.length ≤ texture_index →
      save_texture_png e s texture_index output_path
        = (.error .texture_index_out_of_range, [Call.GetTextures c]))
    ∧ (∀ h : texture_index < e.GetTextures.length,
        (save_texture_png e s texture_index output_path).2
            = [Call.GetTextures c,
               Call.SaveTexture c
                 { resourceId := (e.GetTextures.get ⟨texture_index, h⟩).resourceId,
                   destType := FileType.PNG, mip := 0 } output_path]
        ∧ ((save_texture_png e s texture_index output_path).1 = .error .save_texture_failed
            ↔ e.SaveTexture_OK = false)
        ∧ ((save_texture_png e s texture_index output_path).1 = .ok ()
            ↔ e.SaveTexture_OK = true))
    ∧ (∀ x y : Nat,
        (pick_pixel e s texture_index x y).1 = .error .texture_index_out_of_range
          ↔ (save_texture_png e s texture_index output_path).1
              = .error .texture_index_out_of_range) := by
  refine ⟨?_, ?_, ?_⟩
  · intro h
    unfold save_texture_png
    rw [hopen]
    simp only [ge_iff_le, h, dite_true]
  · intro h
    unfold save_texture_png
    rw [hopen]
    cases hok : e.SaveTexture_OK <;> simp [Nat.not_le.mpr h]
  · intro x y
    unfold save_texture_png pick_pixel
    rw [hopen]
    by_cases h : e.GetTextures.length ≤ texture_index
    · simp [h]
    · cases hok : e.SaveTexture_OK <;> simp [h]

/-- C15, at the stub with three textures: index 3 is refused without a
`SaveTexture` call, index 2 requests a PNG of mip 0 for resource 3. -/
theorem save_texture_png_check_witness :
    save_texture_png stub_engine opened_world.sess 3 "out.png"
        = (.error .texture_index_out_of_range, [Call.GetTextures 12])
    ∧ (save_texture_png stub_engine opened_world.sess 2 "out.png").2
        = [Call.GetTextures 12,
           Call.SaveTexture 12 { resourceId := 3, destType := FileType.PNG, mip := 0 } "out.png"]
    ∧ ((save_texture_png { stub_engine with SaveTexture_OK := false }
          opened_world.sess 2 "out.png").1 = .error .save_texture_failed
        ↔ ({ stub_engine with SaveTexture_OK := false } : Engine).SaveTexture_OK = false) :=
  ⟨(save_texture_png_check stub_engine opened_world.sess 12 3 "out.png" (by decide)).1 (by decide),
   ((save_texture_png_check stub_engine opened_world.sess 12 2 "out.png" (by decide)).2.1
      (by decide)).1,
   ((save_texture_png_check { stub_engine with SaveTexture_OK := false } opened_world.sess 12 2
      "out.png" (by decide)).2.1 (by decide)).2.1⟩

/-- C16: the destructor never writes the process-wide state, so the module
handle and the allocator functions cached there outlive `dlclose`.  On the
stub: a session created from an explicit path holds library 7, which is also
cached; its teardown closes 7 and leaves 7 cached; the next
`RENDERDOC_AllocArrayMem` looks both symbols up on the closed handle 7 and
calls the function 701 resolved from it; and when the allocators were cached
before the teardown, `RENDERDOC_FreeArrayMem` afterwards calls the function
702 that was resolved from 7. -/
theorem teardown_leaves_cached_module :
    (∀ (e : Engine) (w : World), (teardown e w).world.glob = w.glob)
    ∧ (replay_session_new stub_allocators "/opt/rd/librenderdoc.so" {}).world
        = { sess := { lib_ := some 7 }, glob := { g_renderdoc_module := some 7 } }
    ∧ (teardown stub_allocators
        (replay_session_new stub_allocators "/opt/rd/librenderdoc.so" {}).world).trace
        = [Call.dlclose 7]
    ∧ (teardown stub_allocators
        (replay_session_new stub_allocators "/opt/rd/librenderdoc.so" {}).world).world
        = { sess := {}, glob := { g_renderdoc_module := some 7 } }
    ∧ RENDERDOC_AllocArrayMem stub_allocators 16
        (teardown stub_allocators
          (replay_session_new stub_allocators "/opt/rd/librenderdoc.so" {}).world).world.glob
        = (some 500,
            { g_renderdoc_module := some 7, g_alloc_array_mem := some 701,
              g_free_array_mem := some 702 },
            [Call.dlsym (some 7) "RENDERDOC_AllocArrayMem",
             Call.dlsym (some 7) "RENDERDOC_FreeArrayMem", Call.engine_alloc 701 16])
    ∧ RENDERDOC_FreeArrayMem stub_allocators (some 500)
        (teardown stub_allocators
          { sess := { lib_ := some 7 },
            glob := (RENDERDOC_AllocArrayMem stub_allocators 16
              (replay_session_new stub_allocators "/opt/rd/librenderdoc.so" {}).world.glob).2.1
          }).world.glob
        = ({ g_renderdoc_module := some 7, g_alloc_array_mem := some 701,
             g_free_array_mem := some 702 },
            [Call.engine_free 702 (some 500)]) := by
  refine ⟨fun _ _ => rfl, by decide, by decide, by decide, by decide, by decide⟩

end replay
end renderdog
